import Mathlib

/-!
Shallow embedding of the subagent orchestration engine of
src/agents/subagent-registry.ts: the run registry, the lifecycle
listener, the wait prober, the retry scheduler, the verification
pipeline and the cleanup guard.

Modelling conventions. JavaScript numbers are rationals; fields that can
be undefined are Option; the in-memory Map is a function
String → Option record; JS truthiness on an optional number is
explicit (zero and undefined are falsy). External effects (the gateway
RPCs, the announce flow, the hook table, disk persistence) enter as
explicit oracle parameters so every definition stays executable.
-/

namespace OpenclawSubagents

/-- Truthiness of an optional JS number: undefined and 0 are falsy. -/
def qTruthy : Option ℚ → Bool
  | none => false
  | some q => decide (q ≠ 0)

/-- Truthiness of a JS string: the empty string is falsy. -/
def sTruthy (s : String) : Bool :=
  decide (s ≠ "")

/-- Outcome of a run, SubagentRunOutcome in subagent-announce.ts:
status ok, or status error with an optional error string. -/
inductive SubagentRunOutcome where
  | ok : SubagentRunOutcome
  | error (err : Option String) : SubagentRunOutcome
  deriving DecidableEq

/-- Test for outcome?.status === "error" on an optional outcome. -/
def outcomeIsError : Option SubagentRunOutcome → Bool
  | some (SubagentRunOutcome.error _) => true
  | _ => false

/-- Test for outcome?.status === "ok" on an optional outcome. -/
def outcomeIsOk : Option SubagentRunOutcome → Bool
  | some SubagentRunOutcome.ok => true
  | _ => false

/-- Projection outcome?.error of an optional outcome. -/
def outcomeErrorMsg : Option SubagentRunOutcome → Option String
  | some (SubagentRunOutcome.error e) => e
  | _ => none

/-- Cleanup policy of a run: delete or keep the child session. -/
inductive CleanupMode where
  | delete : CleanupMode
  | keep : CleanupMode
  deriving DecidableEq

/-- Verification verdict stored on the record: passed, failed or skipped. -/
inductive VerificationVerdict where
  | passed : VerificationVerdict
  | failed : VerificationVerdict
  | skipped : VerificationVerdict
  deriving DecidableEq

/-- SubagentOrchestrationConfig from config/types.agent-defaults.ts: every
field optional, as used for user config and per-run overrides. -/
structure SubagentOrchestrationConfig where
  retryOnFailure : Option Bool
  maxRetries : Option Nat
  backoffMultiplier : Option ℚ
  initialDelayMs : Option ℚ
  maxDelayMs : Option ℚ
  verifyCompletion : Option Bool
  verificationPrompt : Option String
  verificationTimeoutSeconds : Option ℚ
  retryOnVerificationFailure : Option Bool
  verificationHook : Option String
  deriving DecidableEq

/-- Required SubagentOrchestrationConfig: the fully resolved policy. -/
structure RequiredOrchestrationConfig where
  retryOnFailure : Bool
  maxRetries : Nat
  backoffMultiplier : ℚ
  initialDelayMs : ℚ
  maxDelayMs : ℚ
  verifyCompletion : Bool
  verificationPrompt : String
  verificationTimeoutSeconds : ℚ
  retryOnVerificationFailure : Bool
  verificationHook : String
  deriving DecidableEq

/-- DEFAULT_ORCHESTRATION from subagent-registry.ts. -/
def DEFAULT_ORCHESTRATION : RequiredOrchestrationConfig :=
  { retryOnFailure := false
    maxRetries := 3
    backoffMultiplier := 2
    initialDelayMs := 1000
    maxDelayMs := 60000
    verifyCompletion := false
    verificationPrompt := ""
    verificationTimeoutSeconds := 30
    retryOnVerificationFailure := true
    verificationHook := "" }

/-- One ?? chain of resolveOrchestrationConfig: override ?? user ?? default. -/
def resolveField {α : Type} (overrideConfig userConfig : Option SubagentOrchestrationConfig)
    (f : SubagentOrchestrationConfig → Option α) (d : α) : α :=
  match overrideConfig.bind f with
  | some x => x
  | none =>
    match userConfig.bind f with
    | some x => x
    | none => d

/-- resolveOrchestrationConfig from subagent-registry.ts: field-wise
priority override is greater than user config is greater than defaults.
The userConfig argument stands for
loadConfig().agents?.defaults?.subagents?.orchestration. -/
def resolveOrchestrationConfig (userConfig overrideConfig : Option SubagentOrchestrationConfig) :
    RequiredOrchestrationConfig :=
  { retryOnFailure := resolveField overrideConfig userConfig
      (fun c => c.retryOnFailure) DEFAULT_ORCHESTRATION.retryOnFailure
    maxRetries := resolveField overrideConfig userConfig
      (fun c => c.maxRetries) DEFAULT_ORCHESTRATION.maxRetries
    backoffMultiplier := resolveField overrideConfig userConfig
      (fun c => c.backoffMultiplier) DEFAULT_ORCHESTRATION.backoffMultiplier
    initialDelayMs := resolveField overrideConfig userConfig
      (fun c => c.initialDelayMs) DEFAULT_ORCHESTRATION.initialDelayMs
    maxDelayMs := resolveField overrideConfig userConfig
      (fun c => c.maxDelayMs) DEFAULT_ORCHESTRATION.maxDelayMs
    verifyCompletion := resolveField overrideConfig userConfig
      (fun c => c.verifyCompletion) DEFAULT_ORCHESTRATION.verifyCompletion
    verificationPrompt := resolveField overrideConfig userConfig
      (fun c => c.verificationPrompt) DEFAULT_ORCHESTRATION.verificationPrompt
    verificationTimeoutSeconds := resolveField overrideConfig userConfig
      (fun c => c.verificationTimeoutSeconds) DEFAULT_ORCHESTRATION.verificationTimeoutSeconds
    retryOnVerificationFailure := resolveField overrideConfig userConfig
      (fun c => c.retryOnVerificationFailure) DEFAULT_ORCHESTRATION.retryOnVerificationFailure
    verificationHook := resolveField overrideConfig userConfig
      (fun c => c.verificationHook) DEFAULT_ORCHESTRATION.verificationHook }

/-- View of a fully resolved config as the all-fields-present optional
config, as stored into a record when no per-call override is given. -/
def toOptionalConfig (c : RequiredOrchestrationConfig) : SubagentOrchestrationConfig :=
  { retryOnFailure := some c.retryOnFailure
    maxRetries := some c.maxRetries
    backoffMultiplier := some c.backoffMultiplier
    initialDelayMs := some c.initialDelayMs
    maxDelayMs := some c.maxDelayMs
    verifyCompletion := some c.verifyCompletion
    verificationPrompt := some c.verificationPrompt
    verificationTimeoutSeconds := some c.verificationTimeoutSeconds
    retryOnVerificationFailure := some c.retryOnVerificationFailure
    verificationHook := some c.verificationHook }

/-- The object spread in registerSubagentRun, resolved first then the
per-call override: fields the override carries replace the resolved ones. -/
def mergeOrchestrationConfig (base : RequiredOrchestrationConfig)
    (override : SubagentOrchestrationConfig) : SubagentOrchestrationConfig :=
  { retryOnFailure := some (override.retryOnFailure.getD base.retryOnFailure)
    maxRetries := some (override.maxRetries.getD base.maxRetries)
    backoffMultiplier := some (override.backoffMultiplier.getD base.backoffMultiplier)
    initialDelayMs := some (override.initialDelayMs.getD base.initialDelayMs)
    maxDelayMs := some (override.maxDelayMs.getD base.maxDelayMs)
    verifyCompletion := some (override.verifyCompletion.getD base.verifyCompletion)
    verificationPrompt := some (override.verificationPrompt.getD base.verificationPrompt)
    verificationTimeoutSeconds :=
      some (override.verificationTimeoutSeconds.getD base.verificationTimeoutSeconds)
    retryOnVerificationFailure :=
      some (override.retryOnVerificationFailure.getD base.retryOnVerificationFailure)
    verificationHook := some (override.verificationHook.getD base.verificationHook) }

/-- SubagentRunRecord from subagent-registry.ts. The requesterOrigin
delivery context lives in out-of-scope glue (utils/delivery-context.ts)
and is carried as an opaque string. -/
structure SubagentRunRecord where
  runId : String
  childSessionKey : String
  requesterSessionKey : String
  requesterOrigin : Option String
  requesterDisplayKey : String
  task : String
  cleanup : CleanupMode
  label : Option String
  createdAt : ℚ
  startedAt : Option ℚ
  endedAt : Option ℚ
  outcome : Option SubagentRunOutcome
  archiveAtMs : Option ℚ
  cleanupCompletedAt : Option ℚ
  cleanupHandled : Option Bool
  retryCount : Option Nat
  maxRetries : Option Nat
  nextRetryAt : Option ℚ
  isRetry : Option Bool
  originalRunId : Option String
  verificationAttempted : Option Bool
  verificationResult : Option VerificationVerdict
  orchestrationConfig : Option SubagentOrchestrationConfig
  deriving DecidableEq

/-- The in-memory registry: the subagentRuns Map. -/
abbrev RegistryMap := String → Option SubagentRunRecord

/-- The empty registry. -/
def emptyRegistry : RegistryMap := fun _ => none

/-- Map.set on the registry. -/
def mapSet (m : RegistryMap) (k : String) (v : SubagentRunRecord) : RegistryMap :=
  fun k2 => if k2 = k then some v else m k2

/-- Map.delete on the registry. -/
def mapDelete (m : RegistryMap) (k : String) : RegistryMap :=
  fun k2 => if k2 = k then none else m k2

/-- beginSubagentCleanup from subagent-registry.ts: returns false when the
record is missing, already completed (truthy cleanupCompletedAt) or already
handled; otherwise flags cleanupHandled and returns true. The persistence
call it makes is threaded separately in beginSubagentCleanupE. -/
def beginSubagentCleanup (runs : RegistryMap) (runId : String) :
    Bool × RegistryMap :=
  match runs runId with
  | none => (false, runs)
  | some entry =>
    if qTruthy entry.cleanupCompletedAt then (false, runs)
    else if entry.cleanupHandled.getD false then (false, runs)
    else (true, mapSet runs runId { entry with cleanupHandled := some true })

/-- finalizeSubagentCleanup from subagent-registry.ts: after an announce
attempt, delete-policy records are removed; a failed announce re-opens the
cleanupHandled guard; otherwise cleanupCompletedAt is stamped. -/
def finalizeSubagentCleanup (runs : RegistryMap) (runId : String)
    (cleanup : CleanupMode) (didAnnounce : Bool) (now : ℚ) : RegistryMap :=
  match runs runId with
  | none => runs
  | some entry =>
    if cleanup = CleanupMode.delete then mapDelete runs runId
    else if !didAnnounce then
      mapSet runs runId { entry with cleanupHandled := some false }
    else
      mapSet runs runId { entry with cleanupCompletedAt := some now }

/-- resolveArchiveAfterMs from subagent-registry.ts: minutes default 60,
non-positive disables archiving, otherwise at least one minute, floored. -/
def resolveArchiveAfterMs (archiveAfterMinutes : Option ℚ) : Option ℚ :=
  let minutes := archiveAfterMinutes.getD 60
  if minutes ≤ 0 then none
  else some (((max 1 ⌊minutes⌋ : ℤ) : ℚ) * 60000)

/-- Parameters of registerSubagentRun. runTimeoutSeconds only shapes the
wait-prober timeout and is not part of the record state. -/
structure RegisterParams where
  runId : String
  childSessionKey : String
  requesterSessionKey : String
  requesterOrigin : Option String
  requesterDisplayKey : String
  task : String
  cleanup : CleanupMode
  label : Option String
  orchestrationConfig : Option SubagentOrchestrationConfig
  deriving DecidableEq

/-- registerSubagentRun from subagent-registry.ts: unconditionally stores a
fresh record under params.runId (Map.set), with retryCount 0,
cleanupHandled false, startedAt and createdAt both now, and the resolved
orchestration snapshot. The listener arming, persistence and wait-prober
launch are modelled separately. -/
def registerSubagentRun (runs : RegistryMap) (p : RegisterParams) (now : ℚ)
    (userConfig : Option SubagentOrchestrationConfig)
    (archiveAfterMinutes : Option ℚ) : RegistryMap :=
  let archiveAfterMs := resolveArchiveAfterMs archiveAfterMinutes
  let archiveAtMs := archiveAfterMs.map (fun ms => now + ms)
  let resolvedOrchestration := resolveOrchestrationConfig userConfig none
  let orchestrationConfig :=
    match p.orchestrationConfig with
    | some oc => mergeOrchestrationConfig resolvedOrchestration oc
    | none => toOptionalConfig resolvedOrchestration
  mapSet runs p.runId
    { runId := p.runId
      childSessionKey := p.childSessionKey
      requesterSessionKey := p.requesterSessionKey
      requesterOrigin := p.requesterOrigin
      requesterDisplayKey := p.requesterDisplayKey
      task := p.task
      cleanup := p.cleanup
      label := p.label
      createdAt := now
      startedAt := some now
      endedAt := none
      outcome := none
      archiveAtMs := archiveAtMs
      cleanupCompletedAt := none
      cleanupHandled := some false
      retryCount := some 0
      maxRetries := orchestrationConfig.maxRetries
      nextRetryAt := none
      isRetry := none
      originalRunId := none
      verificationAttempted := none
      verificationResult := none
      orchestrationConfig := some orchestrationConfig }

/-- calculateRetryDelay from subagent-registry.ts: exponential backoff
capped at maxDelayMs. -/
def calculateRetryDelay (retryCount : Nat) (config : RequiredOrchestrationConfig) : ℚ :=
  min (config.initialDelayMs * config.backoffMultiplier ^ retryCount) config.maxDelayMs

/-- shouldRetryTask from subagent-registry.ts. -/
def shouldRetryTask (entry : SubagentRunRecord) (config : RequiredOrchestrationConfig) : Bool :=
  if !config.retryOnFailure then false
  else if entry.retryCount.getD 0 ≥ config.maxRetries then false
  else if !outcomeIsError entry.outcome then false
  else true

/-- The synchronous prefix of scheduleTaskRetry, up to its first await:
increment retryCount and stamp nextRetryAt with the backoff deadline. -/
def scheduleTaskRetryBegin (runs : RegistryMap) (runId : String)
    (config : RequiredOrchestrationConfig) (now : ℚ) : RegistryMap :=
  match runs runId with
  | none => runs
  | some entry =>
    let retryCount := entry.retryCount.getD 0 + 1
    let delay := calculateRetryDelay (retryCount - 1) config
    mapSet runs runId
      { entry with retryCount := some retryCount, nextRetryAt := some (now + delay) }

/-- The post-backoff continuation of scheduleTaskRetry: abort when the
record is gone or in terminal cleanup, otherwise reset the per-attempt
fields before re-spawning via the gateway. -/
def scheduleTaskRetryRespawn (runs : RegistryMap) (runId : String) (now : ℚ) : RegistryMap :=
  match runs runId with
  | none => runs
  | some entry =>
    if qTruthy entry.cleanupCompletedAt then runs
    else
      mapSet runs runId
        { entry with
          endedAt := none
          outcome := none
          cleanupHandled := some false
          startedAt := some now
          isRetry := some true }

/-- A lifecycle event from the agent-event bus, with the data payload
fields flattened (each one optional, as behind evt.data?.). -/
structure AgentEvent where
  stream : String
  runId : String
  phase : Option String
  startedAt : Option ℚ
  endedAt : Option ℚ
  error : Option String
  deriving DecidableEq

/-- What a completion signal decided to do next. -/
inductive CompletionAction where
  | noAction : CompletionAction
  | retryScheduled : CompletionAction
  | retryPending : CompletionAction
  | verificationEntered : CompletionAction
  | verificationPending : CompletionAction
  | cleanupBegun : CompletionAction
  | cleanupSkipped : CompletionAction
  deriving DecidableEq

/-- The outcome a terminal lifecycle event writes: error phase carries the
optional error string, the end phase is ok. -/
def terminalOutcome (evt : AgentEvent) : SubagentRunOutcome :=
  if evt.phase = some "error" then SubagentRunOutcome.error evt.error
  else SubagentRunOutcome.ok

/-- The record after a terminal lifecycle event: endedAt from the event or
the current time, outcome from the phase. -/
def terminalEntry (entry : SubagentRunRecord) (evt : AgentEvent) (now : ℚ) :
    SubagentRunRecord :=
  { entry with endedAt := some (evt.endedAt.getD now), outcome := some (terminalOutcome evt) }

/-- The ensureListener event handler from subagent-registry.ts, as one
synchronous step: map start events onto startedAt, terminal events onto
endedAt and outcome, then branch into retry, verification or guarded
cleanup. The returned action records which branch ran; the asynchronous
bodies of scheduleTaskRetry and handleTaskCompletion are separate steps,
except for the retryCount increment, which the handler reaches
synchronously before the first await of scheduleTaskRetry. -/
def listenerStep (runs : RegistryMap) (evt : AgentEvent) (now : ℚ)
    (userConfig : Option SubagentOrchestrationConfig)
    (pendingRetries pendingVerifications : List String) :
    RegistryMap × CompletionAction :=
  if evt.stream ≠ "lifecycle" then (runs, CompletionAction.noAction)
  else
    match runs evt.runId with
    | none => (runs, CompletionAction.noAction)
    | some entry =>
      if evt.phase = some "start" then
        match evt.startedAt with
        | some s =>
          if s ≠ 0 then
            (mapSet runs evt.runId { entry with startedAt := some s }, CompletionAction.noAction)
          else (runs, CompletionAction.noAction)
        | none => (runs, CompletionAction.noAction)
      else if evt.phase ≠ some "end" ∧ evt.phase ≠ some "error" then
        (runs, CompletionAction.noAction)
      else
        let entry1 := terminalEntry entry evt now
        let runs1 := mapSet runs evt.runId entry1
        let config := resolveOrchestrationConfig userConfig entry1.orchestrationConfig
        if outcomeIsError entry1.outcome && shouldRetryTask entry1 config then
          if evt.runId ∈ pendingRetries then (runs1, CompletionAction.retryPending)
          else (scheduleTaskRetryBegin runs1 evt.runId config now, CompletionAction.retryScheduled)
        else if outcomeIsOk entry1.outcome && config.verifyCompletion then
          if evt.runId ∈ pendingVerifications then (runs1, CompletionAction.verificationPending)
          else (runs1, CompletionAction.verificationEntered)
        else
          let r := beginSubagentCleanup runs1 evt.runId
          (r.2, if r.1 then CompletionAction.cleanupBegun else CompletionAction.cleanupSkipped)

/-- The reply of the gateway agent.wait RPC. -/
structure WaitReply where
  status : Option String
  startedAt : Option ℚ
  endedAt : Option ℚ
  error : Option String
  deriving DecidableEq

/-- The record updates waitForSubagentCompletion applies on a terminal
reply: startedAt and endedAt from the reply when present, endedAt defaulted
to now when still falsy, and the outcome from the reply status. -/
def proberEntry (entry : SubagentRunRecord) (wait : WaitReply) (now : ℚ) :
    SubagentRunRecord :=
  let e1 := match wait.startedAt with
    | some s => { entry with startedAt := some s }
    | none => entry
  let e2 := match wait.endedAt with
    | some t => { e1 with endedAt := some t }
    | none => e1
  let e3 := if !qTruthy e2.endedAt then { e2 with endedAt := some now } else e2
  let outcomeV : SubagentRunOutcome :=
    if wait.status = some "error" then SubagentRunOutcome.error wait.error
    else SubagentRunOutcome.ok
  { e3 with outcome := some outcomeV }

/-- waitForSubagentCompletion from subagent-registry.ts, after the
agent.wait RPC returned: replies whose status is neither ok nor error are
dropped; otherwise startedAt, endedAt and outcome are written onto the
record and guarded cleanup begins directly. -/
def waitProberStep (runs : RegistryMap) (runId : String) (wait : WaitReply) (now : ℚ) :
    RegistryMap × CompletionAction :=
  if wait.status ≠ some "ok" ∧ wait.status ≠ some "error" then (runs, CompletionAction.noAction)
  else
    match runs runId with
    | none => (runs, CompletionAction.noAction)
    | some entry =>
      let runs1 := mapSet runs runId (proberEntry entry wait now)
      let r := beginSubagentCleanup runs1 runId
      (r.2, if r.1 then CompletionAction.cleanupBegun else CompletionAction.cleanupSkipped)

/-- VerificationResult returned by hooks and the built-in verification. -/
structure VerificationResult where
  passed : Bool
  reason : Option String
  deriving DecidableEq

/-- Behaviour of a named hook in the process-global hook registry: not
registered, resolves with a result, or rejects (a thrown error or the
timeout race losing). -/
inductive HookBehavior where
  | missing : HookBehavior
  | returns (r : VerificationResult) : HookBehavior
  | throws (msg : String) : HookBehavior
  deriving DecidableEq

/-- Substring test used by the reply heuristics of verifyWithAgent. -/
def strContains (s pat : String) : Bool :=
  decide ((s.splitOn pat).length ≠ 1)

/-- verifyWithAgent from subagent-registry.ts, with the agent.query RPC
result supplied as an oracle (ok carries the optional reply string, error
a thrown message): classify the lowercased reply into pass and fail. -/
def verifyWithAgent (queryReply : Except String (Option String)) :
    Except String VerificationResult :=
  match queryReply with
  | Except.error msg => Except.error ("Agent query failed: " ++ msg)
  | Except.ok replyOpt =>
    let reply := (replyOpt.getD "").toLower
    if reply.startsWith "yes" || strContains reply "completed successfully" then
      Except.ok { passed := true, reason := some "Agent confirmed completion" }
    else if reply.startsWith "no" || strContains reply "failed"
        || strContains reply "incomplete" then
      Except.ok
        { passed := false,
          reason := some ("Agent reported: " ++ (replyOpt.getD "").take 200) }
    else
      Except.ok { passed := true, reason := some "Unclear response, defaulting to passed" }

/-- verifyTaskCompletion from subagent-registry.ts: returns the verdict
and the record with verificationAttempted flagged. The hook table and the
agent query are oracles. Reason strings follow the source up to
punctuation. -/
def verifyTaskCompletion (entry : SubagentRunRecord) (config : RequiredOrchestrationConfig)
    (hooks : String → HookBehavior) (queryReply : Except String (Option String)) :
    VerificationResult × SubagentRunRecord :=
  if !config.verifyCompletion then
    ({ passed := true, reason := some "Verification disabled" }, entry)
  else
    let entry := { entry with verificationAttempted := some true }
    if sTruthy config.verificationHook then
      match hooks config.verificationHook with
      | HookBehavior.missing =>
        ({ passed := true,
           reason := some ("Hook " ++ config.verificationHook ++ " not found, skipping") },
         entry)
      | HookBehavior.returns r => (r, entry)
      | HookBehavior.throws msg =>
        ({ passed := false, reason := some ("Hook error: " ++ msg) }, entry)
    else if outcomeIsError entry.outcome then
      ({ passed := false,
         reason := some ((outcomeErrorMsg entry.outcome).getD "Task ended with error") },
       entry)
    else if sTruthy config.verificationPrompt then
      match verifyWithAgent queryReply with
      | Except.ok r => (r, entry)
      | Except.error msg =>
        ({ passed := false, reason := some ("Agent verification error: " ++ msg) }, entry)
    else
      ({ passed := true, reason := some "Default verification passed" }, entry)

/-- handleTaskCompletion from subagent-registry.ts, acting on the record
stored under runId; the returned Bool reports whether a retry was newly
scheduled (its synchronous retryCount increment included). -/
def handleTaskCompletion (runs : RegistryMap) (runId : String)
    (config : RequiredOrchestrationConfig) (hooks : String → HookBehavior)
    (queryReply : Except String (Option String)) (pendingRetries : List String)
    (now : ℚ) : RegistryMap × Bool :=
  match runs runId with
  | none => (runs, false)
  | some entry =>
    if outcomeIsError entry.outcome then
      (mapSet runs runId { entry with verificationResult := some VerificationVerdict.skipped },
       false)
    else if config.verifyCompletion then
      let vr := verifyTaskCompletion entry config hooks queryReply
      let entry1 := vr.2
      if vr.1.passed then
        (mapSet runs runId { entry1 with verificationResult := some VerificationVerdict.passed },
         false)
      else
        let entry2 := { entry1 with verificationResult := some VerificationVerdict.failed }
        if config.retryOnVerificationFailure then
          let entry3 := { entry2 with outcome := some (SubagentRunOutcome.error
            (some ("Verification failed: " ++ vr.1.reason.getD "undefined"))) }
          let runs3 := mapSet runs runId entry3
          if shouldRetryTask entry3 config then
            if runId ∈ pendingRetries then (runs3, false)
            else (scheduleTaskRetryBegin runs3 runId config now, true)
          else (runs3, false)
        else (mapSet runs runId entry2, false)
    else
      (mapSet runs runId { entry with verificationResult := some VerificationVerdict.skipped },
       false)

/-- The verification flow launched by the listener for a successful
outcome: handleTaskCompletion followed by its then-continuation, which
begins cleanup only when the outcome was not rewritten to an error. -/
def verificationSettledStep (runs : RegistryMap) (runId : String)
    (userConfig : Option SubagentOrchestrationConfig) (hooks : String → HookBehavior)
    (queryReply : Except String (Option String)) (pendingRetries : List String)
    (now : ℚ) : RegistryMap × CompletionAction :=
  match runs runId with
  | none => (runs, CompletionAction.noAction)
  | some entry =>
    let config := resolveOrchestrationConfig userConfig entry.orchestrationConfig
    let hr := handleTaskCompletion runs runId config hooks queryReply pendingRetries now
    match hr.1 runId with
    | none => (hr.1, CompletionAction.noAction)
    | some e2 =>
      if outcomeIsError e2.outcome then (hr.1, CompletionAction.noAction)
      else
        let r := beginSubagentCleanup hr.1 runId
        (r.2, if r.1 then CompletionAction.cleanupBegun else CompletionAction.cleanupSkipped)

/-- sweepSubagentRuns from subagent-registry.ts: remove every record whose
archiveAtMs is truthy and not in the future. -/
def sweepSubagentRuns (runs : RegistryMap) (now : ℚ) : RegistryMap :=
  fun k =>
    match runs k with
    | none => none
    | some entry =>
      if !qTruthy entry.archiveAtMs then some entry
      else if entry.archiveAtMs.getD 0 > now then some entry
      else none

/-- releaseSubagentRun from subagent-registry.ts: unconditional removal. -/
def releaseSubagentRun (runs : RegistryMap) (runId : String) : RegistryMap :=
  mapDelete runs runId

/-- Modelled from the spec: saveSubagentRegistryToDisk lives in
subagent-registry.store.ts, which is not under src; the spec says it
replaces the snapshot file atomically and may fail. The diskOk oracle
selects between success and a thrown persistence error. -/
def saveSubagentRegistryToDisk (diskOk : Bool) (_runs : RegistryMap) : Except String Unit :=
  if diskOk then Except.ok () else Except.error "failed to write subagent registry"

/-- persistSubagentRuns from subagent-registry.ts: the save call inside
try, with the catch block ignoring persistence failures. -/
def persistSubagentRunsE (diskOk : Bool) (runs : RegistryMap) : Except String Unit :=
  match saveSubagentRegistryToDisk diskOk runs with
  | Except.ok _ => Except.ok ()
  | Except.error _ => Except.ok ()

/-- beginSubagentCleanup with its persistence call threaded: the result
carries the guard outcome, the registry, and how many persists ran. An
uncaught save failure would surface here as Except.error. -/
def beginSubagentCleanupE (diskOk : Bool) (runs : RegistryMap) (runId : String) :
    Except String (Bool × RegistryMap × Nat) :=
  match runs runId with
  | none => Except.ok (false, runs, 0)
  | some entry =>
    if qTruthy entry.cleanupCompletedAt then Except.ok (false, runs, 0)
    else if entry.cleanupHandled.getD false then Except.ok (false, runs, 0)
    else
      let runs1 := mapSet runs runId { entry with cleanupHandled := some true }
      match persistSubagentRunsE diskOk runs1 with
      | Except.ok _ => Except.ok (true, runs1, 1)
      | Except.error e => Except.error e

/-- finalizeSubagentCleanup with its persistence calls threaded. -/
def finalizeSubagentCleanupE (diskOk : Bool) (runs : RegistryMap) (runId : String)
    (cleanup : CleanupMode) (didAnnounce : Bool) (now : ℚ) :
    Except String (RegistryMap × Nat) :=
  match runs runId with
  | none => Except.ok (runs, 0)
  | some entry =>
    if cleanup = CleanupMode.delete then
      let runs1 := mapDelete runs runId
      match persistSubagentRunsE diskOk runs1 with
      | Except.ok _ => Except.ok (runs1, 1)
      | Except.error e => Except.error e
    else if !didAnnounce then
      let runs1 := mapSet runs runId { entry with cleanupHandled := some false }
      match persistSubagentRunsE diskOk runs1 with
      | Except.ok _ => Except.ok (runs1, 1)
      | Except.error e => Except.error e
    else
      let runs1 := mapSet runs runId { entry with cleanupCompletedAt := some now }
      match persistSubagentRunsE diskOk runs1 with
      | Except.ok _ => Except.ok (runs1, 1)
      | Except.error e => Except.error e

/-- registerSubagentRun with its persistence call threaded. -/
def registerSubagentRunE (diskOk : Bool) (runs : RegistryMap) (p : RegisterParams)
    (now : ℚ) (userConfig : Option SubagentOrchestrationConfig)
    (archiveAfterMinutes : Option ℚ) : Except String (RegistryMap × Nat) :=
  let runs1 := registerSubagentRun runs p now userConfig archiveAfterMinutes
  match persistSubagentRunsE diskOk runs1 with
  | Except.ok _ => Except.ok (runs1, 1)
  | Except.error e => Except.error e

/-- Registry states reachable through the orchestration engine steps from
an empty registry. Records arriving through the disk-restore path are
outside this relation: the loader accepts whatever the snapshot holds. -/
inductive Reachable : RegistryMap → Prop where
  | empty : Reachable emptyRegistry
  | register (s : RegistryMap) (p : RegisterParams) (now : ℚ)
      (userConfig : Option SubagentOrchestrationConfig) (archiveAfterMinutes : Option ℚ) :
      Reachable s → Reachable (registerSubagentRun s p now userConfig archiveAfterMinutes)
  | lifecycle (s : RegistryMap) (evt : AgentEvent) (now : ℚ)
      (userConfig : Option SubagentOrchestrationConfig) (pr pv : List String) :
      Reachable s → Reachable (listenerStep s evt now userConfig pr pv).1
  | prober (s : RegistryMap) (runId : String) (wait : WaitReply) (now : ℚ) :
      Reachable s → Reachable (waitProberStep s runId wait now).1
  | verification (s : RegistryMap) (runId : String)
      (userConfig : Option SubagentOrchestrationConfig) (hooks : String → HookBehavior)
      (queryReply : Except String (Option String)) (pr : List String) (now : ℚ) :
      Reachable s → Reachable (verificationSettledStep s runId userConfig hooks queryReply pr now).1
  | respawn (s : RegistryMap) (runId : String) (now : ℚ) :
      Reachable s → Reachable (scheduleTaskRetryRespawn s runId now)
  | beginCleanup (s : RegistryMap) (runId : String) :
      Reachable s → Reachable (beginSubagentCleanup s runId).2
  | finalize (s : RegistryMap) (runId : String) (cleanup : CleanupMode)
      (didAnnounce : Bool) (now : ℚ) :
      Reachable s → Reachable (finalizeSubagentCleanup s runId cleanup didAnnounce now)
  | sweep (s : RegistryMap) (now : ℚ) :
      Reachable s → Reachable (sweepSubagentRuns s now)
  | release (s : RegistryMap) (runId : String) :
      Reachable s → Reachable (releaseSubagentRun s runId)

/-- The retry-count invariant carried per record: the maxRetries snapshot
and the orchestration snapshot agree, and retryCount stays below it. -/
def RecordOk (e : SubagentRunRecord) : Prop :=
  ∃ m, e.maxRetries = some m ∧
    (∃ oc, e.orchestrationConfig = some oc ∧ oc.maxRetries = some m) ∧
    e.retryCount.getD 0 ≤ m

/-- The retry-count invariant over a whole registry. -/
def RegistryOk (s : RegistryMap) : Prop :=
  ∀ runId e, s runId = some e → RecordOk e

/-- A sample record used by concrete witnesses. -/
def sampleRecord : SubagentRunRecord :=
  { runId := "run-1"
    childSessionKey := "agent:main:subagent:one"
    requesterSessionKey := "agent:main:main"
    requesterOrigin := none
    requesterDisplayKey := "main"
    task := "do the thing"
    cleanup := CleanupMode.keep
    label := none
    createdAt := 100
    startedAt := some 100
    endedAt := none
    outcome := none
    archiveAtMs := none
    cleanupCompletedAt := none
    cleanupHandled := some false
    retryCount := some 0
    maxRetries := some 3
    nextRetryAt := none
    isRetry := none
    originalRunId := none
    verificationAttempted := none
    verificationResult := none
    orchestrationConfig := none }

/-- A singleton registry holding sampleRecord under "run-1". -/
def sampleRegistry : RegistryMap :=
  mapSet emptyRegistry "run-1" sampleRecord

/-- An all-fields-present orchestration override enabling retries. -/
def retryEnabledConfig : SubagentOrchestrationConfig :=
  { retryOnFailure := some true
    maxRetries := some 3
    backoffMultiplier := some 2
    initialDelayMs := some 1000
    maxDelayMs := some 60000
    verifyCompletion := some false
    verificationPrompt := some ""
    verificationTimeoutSeconds := some 30
    retryOnVerificationFailure := some true
    verificationHook := some "" }

/-- A registry with one retry-enabled live record under "run-1". -/
def retryRegistry : RegistryMap :=
  mapSet emptyRegistry "run-1"
    { sampleRecord with orchestrationConfig := some retryEnabledConfig }

/-- Sample register params for witnesses. -/
def sampleParams : RegisterParams :=
  { runId := "run-1"
    childSessionKey := "agent:main:subagent:one"
    requesterSessionKey := "agent:main:main"
    requesterOrigin := none
    requesterDisplayKey := "main"
    task := "do the thing"
    cleanup := CleanupMode.keep
    label := none
    orchestrationConfig := none }

/-- A registry whose "run-1" record carries stale terminal state, for the
duplicate-registration witness. -/
def dirtyRegistry : RegistryMap :=
  mapSet emptyRegistry "run-1"
    { sampleRecord with
      retryCount := some 2
      endedAt := some 200
      outcome := some (SubagentRunOutcome.error (some "boom"))
      cleanupHandled := some true
      verificationAttempted := some true
      verificationResult := some VerificationVerdict.failed }

/-- The agent.wait reply used by the prober counterexample: a terminal
error with timestamps. -/
def c1Wait : WaitReply :=
  { status := some "error", startedAt := some 100, endedAt := some 200, error := some "boom" }

/-- A record that already finished cleanup but keeps an older endedAt. -/
def c4Record : SubagentRunRecord :=
  { sampleRecord with
    endedAt := some 2
    outcome := some SubagentRunOutcome.ok
    cleanupHandled := some true
    cleanupCompletedAt := some 5 }

/-- A registry holding c4Record under "run-1". -/
def c4Registry : RegistryMap :=
  mapSet emptyRegistry "run-1" c4Record

/-- A terminal end event for "run-1" carrying endedAt 10. -/
def c4Event : AgentEvent :=
  { stream := "lifecycle", runId := "run-1", phase := some "end",
    startedAt := none, endedAt := some 10, error := none }

/-- A resolved config demanding verification through the hook "check". -/
def c6Config : RequiredOrchestrationConfig :=
  { DEFAULT_ORCHESTRATION with verifyCompletion := true, verificationHook := "check" }

/-- A successfully ended record awaiting verification. -/
def c6Record : SubagentRunRecord :=
  { sampleRecord with endedAt := some 200, outcome := some SubagentRunOutcome.ok }

/-- A registry holding c6Record under "run-1". -/
def c6Registry : RegistryMap :=
  mapSet emptyRegistry "run-1" c6Record

/-! ## Theorems -/

theorem mapSet_same (m : RegistryMap) (k : String) (v : SubagentRunRecord) :
    mapSet m k v k = some v := by
  simp [mapSet]

theorem mapSet_other (m : RegistryMap) (k k2 : String) (v : SubagentRunRecord)
    (h : k2 ≠ k) : mapSet m k v k2 = m k2 := by
  simp [mapSet, h]

/-- Claim C2: beginSubagentCleanup(runId) returns true iff the record
exists, has no cleanupCompletedAt and is not already cleanupHandled; on
true it sets cleanupHandled on the stored record, on false it leaves the
registry unchanged; and a second begin right after a successful one
returns false, so at most one caller can begin cleanup. The hypothesis
excludes the degenerate timestamp 0, which the engine never stores
(timestamps come from Date.now()): the source tests presence by JS
truthiness. -/
theorem c2_begin_cleanup_guard (runs : RegistryMap) (runId : String)
    (h0 : ∀ e, runs runId = some e → e.cleanupCompletedAt ≠ some 0) :
    ((beginSubagentCleanup runs runId).1 = true ↔
      ∃ e, runs runId = some e ∧ e.cleanupCompletedAt = none ∧
        e.cleanupHandled.getD false = false) ∧
    (∀ e, runs runId = some e → (beginSubagentCleanup runs runId).1 = true →
      (beginSubagentCleanup runs runId).2 runId =
        some { e with cleanupHandled := some true }) ∧
    ((beginSubagentCleanup runs runId).1 = false →
      (beginSubagentCleanup runs runId).2 = runs) ∧
    ((beginSubagentCleanup runs runId).1 = true →
      (beginSubagentCleanup (beginSubagentCleanup runs runId).2 runId).1 = false) := by
  refine ⟨?_, ?_, ?_, ?_⟩
  · constructor
    · intro h
      match he : runs runId with
      | none => simp [beginSubagentCleanup, he] at h
      | some e =>
        refine ⟨e, rfl, ?_⟩
        simp only [beginSubagentCleanup, he] at h
        by_cases hc : qTruthy e.cleanupCompletedAt
        · simp [hc] at h
        · by_cases hh : e.cleanupHandled.getD false
          · simp [hc, hh] at h
          · refine ⟨?_, by simpa using hh⟩
            match hcc : e.cleanupCompletedAt with
            | none => rfl
            | some q =>
              exfalso
              rcases eq_or_ne q 0 with hq | hq
              · exact h0 e he (by rw [hcc, hq])
              · exact hc (by simp [qTruthy, hcc, hq])
    · rintro ⟨e, he, hcc, hh⟩
      simp [beginSubagentCleanup, he, qTruthy, hcc, hh]
  · intro e he h
    simp only [beginSubagentCleanup, he] at h ⊢
    by_cases hc : qTruthy e.cleanupCompletedAt
    · simp [hc] at h
    · by_cases hh : e.cleanupHandled.getD false
      · simp [hc, hh] at h
      · simp [hc, hh, mapSet_same]
  · intro h
    match he : runs runId with
    | none => simp [beginSubagentCleanup, he]
    | some e =>
      simp only [beginSubagentCleanup, he] at h ⊢
      by_cases hc : qTruthy e.cleanupCompletedAt
      · simp [hc]
      · by_cases hh : e.cleanupHandled.getD false
        · simp [hc, hh]
        · simp [hc, hh] at h
  · intro h
    match he : runs runId with
    | none => simp [beginSubagentCleanup, he] at h
    | some e =>
      simp only [beginSubagentCleanup, he] at h
      by_cases hc : qTruthy e.cleanupCompletedAt
      · simp [hc] at h
      · by_cases hh : e.cleanupHandled.getD false
        · simp [hc, hh] at h
        · have hstep : (beginSubagentCleanup runs runId).2 =
              mapSet runs runId { e with cleanupHandled := some true } := by
            simp [beginSubagentCleanup, he, hc, hh]
          have hlook : (mapSet runs runId { e with cleanupHandled := some true }) runId =
              some { e with cleanupHandled := some true } :=
            mapSet_same runs runId { e with cleanupHandled := some true }
          rw [hstep]
          simp [beginSubagentCleanup, hlook, hc]

/-- Witness for C2 at a concrete registry: the guard succeeds on a live
record and the second begin fails. -/
theorem c2_begin_cleanup_guard_witness :
    ((beginSubagentCleanup sampleRegistry "run-1").1 = true ↔
      ∃ e, sampleRegistry "run-1" = some e ∧ e.cleanupCompletedAt = none ∧
        e.cleanupHandled.getD false = false) ∧
    (∀ e, sampleRegistry "run-1" = some e →
      (beginSubagentCleanup sampleRegistry "run-1").1 = true →
      (beginSubagentCleanup sampleRegistry "run-1").2 "run-1" =
        some { e with cleanupHandled := some true }) ∧
    ((beginSubagentCleanup sampleRegistry "run-1").1 = false →
      (beginSubagentCleanup sampleRegistry "run-1").2 = sampleRegistry) ∧
    ((beginSubagentCleanup sampleRegistry "run-1").1 = true →
      (beginSubagentCleanup (beginSubagentCleanup sampleRegistry "run-1").2 "run-1").1 = false) :=
  c2_begin_cleanup_guard sampleRegistry "run-1" (by decide)

theorem mapDelete_same (m : RegistryMap) (k : String) :
    mapDelete m k k = none := by
  simp [mapDelete]

theorem persistE_ok (diskOk : Bool) (runs : RegistryMap) :
    persistSubagentRunsE diskOk runs = Except.ok () := by
  cases diskOk <;> rfl

theorem beginE_spec (diskOk : Bool) (runs : RegistryMap) (runId : String) :
    beginSubagentCleanupE diskOk runs runId =
      Except.ok ((beginSubagentCleanup runs runId).1, (beginSubagentCleanup runs runId).2,
        if (beginSubagentCleanup runs runId).1 then 1 else 0) := by
  match he : runs runId with
  | none => simp [beginSubagentCleanupE, beginSubagentCleanup, he]
  | some e =>
    by_cases hc : qTruthy e.cleanupCompletedAt
    · simp [beginSubagentCleanupE, beginSubagentCleanup, he, hc]
    · by_cases hh : e.cleanupHandled.getD false
      · simp [beginSubagentCleanupE, beginSubagentCleanup, he, hc, hh]
      · simp [beginSubagentCleanupE, beginSubagentCleanup, he, hc, hh, persistE_ok]

theorem finalizeE_spec (diskOk : Bool) (runs : RegistryMap) (runId : String)
    (cleanup : CleanupMode) (didAnnounce : Bool) (now : ℚ) :
    finalizeSubagentCleanupE diskOk runs runId cleanup didAnnounce now =
      Except.ok (finalizeSubagentCleanup runs runId cleanup didAnnounce now,
        if (runs runId).isSome then 1 else 0) := by
  match he : runs runId with
  | none => simp [finalizeSubagentCleanupE, finalizeSubagentCleanup, he]
  | some e =>
    cases cleanup with
    | delete => simp [finalizeSubagentCleanupE, finalizeSubagentCleanup, he, persistE_ok]
    | keep =>
      cases didAnnounce with
      | false => simp [finalizeSubagentCleanupE, finalizeSubagentCleanup, he, persistE_ok]
      | true => simp [finalizeSubagentCleanupE, finalizeSubagentCleanup, he, persistE_ok]

theorem registerE_spec (diskOk : Bool) (runs : RegistryMap) (p : RegisterParams)
    (now : ℚ) (userConfig : Option SubagentOrchestrationConfig)
    (archiveAfterMinutes : Option ℚ) :
    registerSubagentRunE diskOk runs p now userConfig archiveAfterMinutes =
      Except.ok (registerSubagentRun runs p now userConfig archiveAfterMinutes, 1) := by
  simp [registerSubagentRunE, persistE_ok]

/-- Claim C7: finalisation after an announce attempt on an existing record
is the three-way split of finalizeSubagentCleanup: delete-policy records
are removed; a failed announce resets cleanupHandled to false and leaves
cleanupCompletedAt untouched; otherwise cleanupCompletedAt is stamped with
now. Each branch runs exactly one persist. -/
theorem c7_finalize_cases (diskOk : Bool) (runs : RegistryMap) (runId : String)
    (entry : SubagentRunRecord) (cleanup : CleanupMode) (didAnnounce : Bool) (now : ℚ)
    (he : runs runId = some entry) :
    (cleanup = CleanupMode.delete →
      finalizeSubagentCleanup runs runId cleanup didAnnounce now runId = none) ∧
    (cleanup = CleanupMode.keep → didAnnounce = false →
      finalizeSubagentCleanup runs runId cleanup didAnnounce now runId =
        some { entry with cleanupHandled := some false } ∧
      ({ entry with cleanupHandled := some false }).cleanupCompletedAt =
        entry.cleanupCompletedAt) ∧
    (cleanup = CleanupMode.keep → didAnnounce = true →
      finalizeSubagentCleanup runs runId cleanup didAnnounce now runId =
        some { entry with cleanupCompletedAt := some now }) ∧
    (∃ w, finalizeSubagentCleanupE diskOk runs runId cleanup didAnnounce now =
        Except.ok w ∧ w.2 = 1) := by
  refine ⟨?_, ?_, ?_, ?_⟩
  · intro hdel
    subst hdel
    simp [finalizeSubagentCleanup, he, mapDelete_same]
  · intro hkeep hann
    subst hkeep
    subst hann
    constructor
    · simp [finalizeSubagentCleanup, he, mapSet_same]
    · rfl
  · intro hkeep hann
    subst hkeep
    subst hann
    simp [finalizeSubagentCleanup, he, mapSet_same]
  · refine ⟨_, finalizeE_spec diskOk runs runId cleanup didAnnounce now, ?_⟩
    simp [he]

/-- Witness for C7 on a concrete record with a failed announce under the
keep policy. -/
theorem c7_finalize_cases_witness :
    (CleanupMode.keep = CleanupMode.delete →
      finalizeSubagentCleanup sampleRegistry "run-1" CleanupMode.keep false 500 "run-1" = none) ∧
    (CleanupMode.keep = CleanupMode.keep → false = false →
      finalizeSubagentCleanup sampleRegistry "run-1" CleanupMode.keep false 500 "run-1" =
        some { sampleRecord with cleanupHandled := some false } ∧
      ({ sampleRecord with cleanupHandled := some false }).cleanupCompletedAt =
        sampleRecord.cleanupCompletedAt) ∧
    (CleanupMode.keep = CleanupMode.keep → false = true →
      finalizeSubagentCleanup sampleRegistry "run-1" CleanupMode.keep false 500 "run-1" =
        some { sampleRecord with cleanupCompletedAt := some 500 }) ∧
    (∃ w, finalizeSubagentCleanupE true sampleRegistry "run-1" CleanupMode.keep false 500 =
        Except.ok w ∧ w.2 = 1) :=
  c7_finalize_cases true sampleRegistry "run-1" sampleRecord CleanupMode.keep false 500 (by rfl)

/-- Claim C10: registering a runId that is already present unconditionally
overwrites the old record with a fresh one, identical to what registration
into an empty registry would store: retryCount 0, cleanupHandled false,
and no outcome, endedAt, cleanup or verification state survives. -/
theorem c10_register_overwrites (runs : RegistryMap) (p : RegisterParams) (now : ℚ)
    (userConfig : Option SubagentOrchestrationConfig) (archiveAfterMinutes : Option ℚ)
    (old : SubagentRunRecord) (hold : runs p.runId = some old) :
    registerSubagentRun runs p now userConfig archiveAfterMinutes p.runId =
      registerSubagentRun emptyRegistry p now userConfig archiveAfterMinutes p.runId ∧
    ∃ fresh, registerSubagentRun runs p now userConfig archiveAfterMinutes p.runId =
        some fresh ∧
      fresh.retryCount = some 0 ∧ fresh.cleanupHandled = some false ∧
      fresh.outcome = none ∧ fresh.endedAt = none ∧ fresh.cleanupCompletedAt = none ∧
      fresh.verificationAttempted = none ∧ fresh.verificationResult = none ∧
      fresh.nextRetryAt = none ∧ fresh.isRetry = none := by
  constructor
  · simp [registerSubagentRun, mapSet_same]
  · simp only [registerSubagentRun]
    exact ⟨_, mapSet_same _ _ _, rfl, rfl, rfl, rfl, rfl, rfl, rfl, rfl, rfl⟩

/-- Witness for C10 over a registry whose "run-1" record carries stale
terminal and verification state. -/
theorem c10_register_overwrites_witness :
    registerSubagentRun dirtyRegistry sampleParams 300 none none sampleParams.runId =
      registerSubagentRun emptyRegistry sampleParams 300 none none sampleParams.runId ∧
    ∃ fresh, registerSubagentRun dirtyRegistry sampleParams 300 none none sampleParams.runId =
        some fresh ∧
      fresh.retryCount = some 0 ∧ fresh.cleanupHandled = some false ∧
      fresh.outcome = none ∧ fresh.endedAt = none ∧ fresh.cleanupCompletedAt = none ∧
      fresh.verificationAttempted = none ∧ fresh.verificationResult = none ∧
      fresh.nextRetryAt = none ∧ fresh.isRetry = none :=
  c10_register_overwrites dirtyRegistry sampleParams 300 none none
    { sampleRecord with
      retryCount := some 2
      endedAt := some 200
      outcome := some (SubagentRunOutcome.error (some "boom"))
      cleanupHandled := some true
      verificationAttempted := some true
      verificationResult := some VerificationVerdict.failed }
    (by rfl)

/-- Counterexample to claim C8: immediately after register, with no
lifecycle event or prober reply yet, the stored startedAt is already
populated (with the registration time), not absent. -/
theorem c8_counterexample :
    Option.map (fun e => e.startedAt)
        (registerSubagentRun emptyRegistry sampleParams 100 none none "run-1") =
      some (some 100) ∧
    Option.map (fun e => e.startedAt)
        (registerSubagentRun emptyRegistry sampleParams 100 none none "run-1") ≠
      some none := by
  constructor
  · rfl
  · decide

/-- Claim C8 as amended: register initialises startedAt to the
registration time (equal to createdAt), so it is present from the start; a
later start lifecycle event carrying a nonzero startedAt overwrites it. -/
theorem c8_startedAt_initialised (runs : RegistryMap) (p : RegisterParams) (now : ℚ)
    (userConfig : Option SubagentOrchestrationConfig) (archiveAfterMinutes : Option ℚ)
    (runs2 : RegistryMap) (evt : AgentEvent) (now2 : ℚ)
    (userConfig2 : Option SubagentOrchestrationConfig) (pr pv : List String)
    (entry2 : SubagentRunRecord) (s : ℚ)
    (hs2 : evt.stream = "lifecycle") (he2 : runs2 evt.runId = some entry2)
    (hph : evt.phase = some "start") (hsa : evt.startedAt = some s) (hnz : s ≠ 0) :
    (∃ fresh, registerSubagentRun runs p now userConfig archiveAfterMinutes p.runId =
        some fresh ∧ fresh.startedAt = some now ∧ fresh.createdAt = now) ∧
    (listenerStep runs2 evt now2 userConfig2 pr pv).1 evt.runId =
      some { entry2 with startedAt := some s } := by
  constructor
  · simp only [registerSubagentRun]
    exact ⟨_, mapSet_same _ _ _, rfl, rfl⟩
  · simp [listenerStep, hs2, he2, hph, hsa, hnz, mapSet_same]

/-- Witness for C8 as amended at a concrete registration and start event. -/
theorem c8_startedAt_initialised_witness :
    (∃ fresh, registerSubagentRun emptyRegistry sampleParams 100 none none
        sampleParams.runId = some fresh ∧ fresh.startedAt = some 100 ∧
        fresh.createdAt = 100) ∧
    (listenerStep sampleRegistry
        { stream := "lifecycle", runId := "run-1", phase := some "start",
          startedAt := some 150, endedAt := none, error := none }
        200 none [] []).1 "run-1" =
      some { sampleRecord with startedAt := some 150 } :=
  c8_startedAt_initialised emptyRegistry sampleParams 100 none none sampleRegistry
    { stream := "lifecycle", runId := "run-1", phase := some "start",
      startedAt := some 150, endedAt := none, error := none }
    200 none [] [] sampleRecord 150 (by rfl) (by rfl) (by rfl) (by rfl) (by decide)

/-- Claim C5: the synchronous prefix of scheduleTaskRetry increments
retryCount from k to k+1 and stamps nextRetryAt with now plus
min(initialDelayMs * backoffMultiplier^k, maxDelayMs), where k is the
pre-increment retryCount; hence the k-indexed delays follow that formula
for every k. -/
theorem c5_backoff_delay (runs : RegistryMap) (runId : String) (entry : SubagentRunRecord)
    (config : RequiredOrchestrationConfig) (now : ℚ) (k : Nat)
    (he : runs runId = some entry) (hk : entry.retryCount.getD 0 = k) :
    scheduleTaskRetryBegin runs runId config now runId =
      some { entry with
        retryCount := some (k + 1)
        nextRetryAt := some (now +
          min (config.initialDelayMs * config.backoffMultiplier ^ k) config.maxDelayMs) } := by
  simp [scheduleTaskRetryBegin, he, hk, calculateRetryDelay, Nat.add_sub_cancel, mapSet_same]

/-- Witness for C5 at a concrete record with two retries already done and
the default backoff policy: the third delay is min(1000 * 4, 60000). -/
theorem c5_backoff_delay_witness :
    scheduleTaskRetryBegin
        (mapSet emptyRegistry "run-1" { sampleRecord with retryCount := some 2 })
        "run-1" DEFAULT_ORCHESTRATION 1000 "run-1" =
      some { { sampleRecord with retryCount := some 2 } with
        retryCount := some (2 + 1)
        nextRetryAt := some (1000 +
          min (DEFAULT_ORCHESTRATION.initialDelayMs *
            DEFAULT_ORCHESTRATION.backoffMultiplier ^ 2) DEFAULT_ORCHESTRATION.maxDelayMs) } :=
  c5_backoff_delay (mapSet emptyRegistry "run-1" { sampleRecord with retryCount := some 2 })
    "run-1" { sampleRecord with retryCount := some 2 } DEFAULT_ORCHESTRATION 1000 2
    (by rfl) (by rfl)

/-- Claim C9: persistence failures never escape. The persist wrapper
returns normally whatever the save does, and the persisting operations
(cleanup begin and finalise, register) complete with the same registry
state whether or not the underlying disk save throws. -/
theorem c9_persistence_swallowed (diskOk : Bool) (runs : RegistryMap) (runId : String)
    (cleanup : CleanupMode) (didAnnounce : Bool) (now : ℚ) (p : RegisterParams)
    (userConfig : Option SubagentOrchestrationConfig) (archiveAfterMinutes : Option ℚ) :
    persistSubagentRunsE diskOk runs = Except.ok () ∧
    beginSubagentCleanupE diskOk runs runId = beginSubagentCleanupE true runs runId ∧
    (∃ v, beginSubagentCleanupE diskOk runs runId = Except.ok v ∧
      v.1 = (beginSubagentCleanup runs runId).1 ∧
      v.2.1 = (beginSubagentCleanup runs runId).2) ∧
    (∃ w, finalizeSubagentCleanupE diskOk runs runId cleanup didAnnounce now = Except.ok w ∧
      w.1 = finalizeSubagentCleanup runs runId cleanup didAnnounce now) ∧
    (∃ z, registerSubagentRunE diskOk runs p now userConfig archiveAfterMinutes =
        Except.ok z ∧
      z.1 = registerSubagentRun runs p now userConfig archiveAfterMinutes) := by
  refine ⟨persistE_ok diskOk runs, ?_, ?_, ?_, ?_⟩
  · rw [beginE_spec, beginE_spec]
  · exact ⟨_, beginE_spec diskOk runs runId, rfl, rfl⟩
  · exact ⟨_, finalizeE_spec diskOk runs runId cleanup didAnnounce now, rfl⟩
  · exact ⟨_, registerE_spec diskOk runs p now userConfig archiveAfterMinutes, rfl⟩

/-- Counterexample to claim C6: with verification enabled, hook name
"check" configured and no such hook registered, the stored
verificationResult after handleTaskCompletion is passed, not skipped (the
word skipping only appears inside the free-text reason). -/
theorem c6_counterexample :
    Option.map (fun e => e.verificationResult)
        ((handleTaskCompletion c6Registry "run-1" c6Config (fun _ => HookBehavior.missing)
          (Except.ok none) [] 300).1 "run-1") =
      some (some VerificationVerdict.passed) ∧
    some (some VerificationVerdict.passed) ≠ some (some VerificationVerdict.skipped) := by
  constructor
  · rfl
  · decide

/-- Claim C6 as amended: when verification runs with a non-empty
verificationHook name that is not registered, the verdict is passed (the
reason noting the hook was not found), and the record ends with
verificationResult recorded as passed — treated as passed, proceeding to
cleanup — rather than skipped. -/
theorem c6_hook_missing_treated_passed (runs : RegistryMap) (runId : String)
    (entry : SubagentRunRecord) (config : RequiredOrchestrationConfig)
    (hooks : String → HookBehavior) (queryReply : Except String (Option String))
    (pendingRetries : List String) (now : ℚ)
    (he : runs runId = some entry)
    (h1 : config.verifyCompletion = true) (h2 : config.verificationHook ≠ "")
    (h3 : hooks config.verificationHook = HookBehavior.missing)
    (h4 : outcomeIsError entry.outcome = false) :
    (verifyTaskCompletion entry config hooks queryReply).1.passed = true ∧
    Option.map (fun e => e.verificationResult)
        ((handleTaskCompletion runs runId config hooks queryReply pendingRetries now).1 runId) =
      some (some VerificationVerdict.passed) := by
  have hv : verifyTaskCompletion entry config hooks queryReply =
      ({ passed := true,
         reason := some ("Hook " ++ config.verificationHook ++ " not found, skipping") },
       { entry with verificationAttempted := some true }) := by
    simp [verifyTaskCompletion, h1, sTruthy, ne_eq, h2, h3]
  constructor
  · rw [hv]
  · simp [handleTaskCompletion, he, h4, h1, hv, mapSet_same]

/-- Witness for C6 as amended at the concrete missing-hook scenario. -/
theorem c6_hook_missing_treated_passed_witness :
    (verifyTaskCompletion c6Record c6Config (fun _ => HookBehavior.missing)
      (Except.ok none)).1.passed = true ∧
    Option.map (fun e => e.verificationResult)
        ((handleTaskCompletion c6Registry "run-1" c6Config (fun _ => HookBehavior.missing)
          (Except.ok none) [] 300).1 "run-1") =
      some (some VerificationVerdict.passed) :=
  c6_hook_missing_treated_passed c6Registry "run-1" c6Record c6Config
    (fun _ => HookBehavior.missing) (Except.ok none) [] 300
    (by rfl) (by rfl) (by decide) (by rfl) (by rfl)

theorem beginCleanup_lookup (m : RegistryMap) (k : String) (e : SubagentRunRecord)
    (he : m k = some e) :
    (beginSubagentCleanup m k).2 k = some e ∨
    (beginSubagentCleanup m k).2 k = some { e with cleanupHandled := some true } := by
  simp only [beginSubagentCleanup, he]
  by_cases hc : qTruthy e.cleanupCompletedAt
  · left
    simp [hc, he]
  · by_cases hh : e.cleanupHandled.getD false
    · left
      simp [hc, hh, he]
    · right
      simp [hc, hh, mapSet_same]

theorem listenerStep_terminal (runs : RegistryMap) (evt : AgentEvent) (now : ℚ)
    (userConfig : Option SubagentOrchestrationConfig) (pr pv : List String)
    (entry : SubagentRunRecord)
    (hs : evt.stream = "lifecycle") (he : runs evt.runId = some entry)
    (hph : evt.phase = some "end" ∨ evt.phase = some "error") :
    listenerStep runs evt now userConfig pr pv =
      (let entry1 := terminalEntry entry evt now
       let runs1 := mapSet runs evt.runId entry1
       let config := resolveOrchestrationConfig userConfig entry1.orchestrationConfig
       if outcomeIsError entry1.outcome && shouldRetryTask entry1 config then
         if evt.runId ∈ pr then (runs1, CompletionAction.retryPending)
         else (scheduleTaskRetryBegin runs1 evt.runId config now,
           CompletionAction.retryScheduled)
       else if outcomeIsOk entry1.outcome && config.verifyCompletion then
         if evt.runId ∈ pv then (runs1, CompletionAction.verificationPending)
         else (runs1, CompletionAction.verificationEntered)
       else
         let r := beginSubagentCleanup runs1 evt.runId
         (r.2, if r.1 then CompletionAction.cleanupBegun else CompletionAction.cleanupSkipped)) := by
  cases hph with
  | inl h => simp [listenerStep, hs, he, h]
  | inr h => simp [listenerStep, hs, he, h]

/-- Counterexample to claim C1: a terminal error reply received by the
wait prober, on a run whose retry policy permits a retry (retryOnFailure
on, retryCount 0 of 3), proceeds straight to cleanup: the action is
cleanupBegun and retryCount is untouched, although the resulting record
satisfies shouldRetryTask under its own resolved policy. -/
theorem c1_counterexample :
    (waitProberStep retryRegistry "run-1" c1Wait 300).2 = CompletionAction.cleanupBegun ∧
    Option.map (fun e => e.retryCount)
        ((waitProberStep retryRegistry "run-1" c1Wait 300).1 "run-1") = some (some 0) ∧
    Option.map (fun e => outcomeIsError e.outcome)
        ((waitProberStep retryRegistry "run-1" c1Wait 300).1 "run-1") = some true ∧
    Option.map (fun e => shouldRetryTask e (resolveOrchestrationConfig none e.orchestrationConfig))
        ((waitProberStep retryRegistry "run-1" c1Wait 300).1 "run-1") = some true := by
  refine ⟨by decide, by decide, by decide, by decide⟩

/-- Claim C1 as amended: the lifecycle listener evaluates the post-completion
policy on every terminal event — error plus shouldRetry enqueues a retry
and leaves the cleanup guard alone, ok plus verifyCompletion enters
verification, anything else goes to guarded cleanup. The wait prober does
not evaluate that policy: on any terminal reply for a known run it goes
directly to guarded cleanup. After the verification flow settles, cleanup
is begun only when the stored outcome is not an error; an outcome
rewritten to error (retry or not) never reaches cleanup from that path. -/
theorem c1_terminal_policy
    (runs : RegistryMap) (evt : AgentEvent) (now : ℚ)
    (userConfig : Option SubagentOrchestrationConfig) (pr pv : List String)
    (entry : SubagentRunRecord)
    (runs2 : RegistryMap) (runId2 : String) (wait : WaitReply) (now2 : ℚ)
    (runs3 : RegistryMap) (runId3 : String)
    (userConfig3 : Option SubagentOrchestrationConfig) (hooks : String → HookBehavior)
    (qr : Except String (Option String)) (pr3 : List String) (now3 : ℚ)
    (hs : evt.stream = "lifecycle") (he : runs evt.runId = some entry)
    (hph : evt.phase = some "end" ∨ evt.phase = some "error")
    (hw : wait.status = some "ok" ∨ wait.status = some "error")
    (hsome2 : (runs2 runId2).isSome = true) :
    ((outcomeIsError (terminalEntry entry evt now).outcome &&
        shouldRetryTask (terminalEntry entry evt now)
          (resolveOrchestrationConfig userConfig
            (terminalEntry entry evt now).orchestrationConfig)) = true →
      ((listenerStep runs evt now userConfig pr pv).2 = CompletionAction.retryPending ∨
       (listenerStep runs evt now userConfig pr pv).2 = CompletionAction.retryScheduled) ∧
      Option.map (fun e => e.cleanupHandled)
          ((listenerStep runs evt now userConfig pr pv).1 evt.runId) =
        some entry.cleanupHandled) ∧
    ((outcomeIsError (terminalEntry entry evt now).outcome &&
        shouldRetryTask (terminalEntry entry evt now)
          (resolveOrchestrationConfig userConfig
            (terminalEntry entry evt now).orchestrationConfig)) = false →
      (outcomeIsOk (terminalEntry entry evt now).outcome &&
        (resolveOrchestrationConfig userConfig
          (terminalEntry entry evt now).orchestrationConfig).verifyCompletion) = true →
      ((listenerStep runs evt now userConfig pr pv).2 = CompletionAction.verificationPending ∨
       (listenerStep runs evt now userConfig pr pv).2 = CompletionAction.verificationEntered)) ∧
    ((outcomeIsError (terminalEntry entry evt now).outcome &&
        shouldRetryTask (terminalEntry entry evt now)
          (resolveOrchestrationConfig userConfig
            (terminalEntry entry evt now).orchestrationConfig)) = false →
      (outcomeIsOk (terminalEntry entry evt now).outcome &&
        (resolveOrchestrationConfig userConfig
          (terminalEntry entry evt now).orchestrationConfig).verifyCompletion) = false →
      ((listenerStep runs evt now userConfig pr pv).2 = CompletionAction.cleanupBegun ∨
       (listenerStep runs evt now userConfig pr pv).2 = CompletionAction.cleanupSkipped)) ∧
    ((waitProberStep runs2 runId2 wait now2).2 = CompletionAction.cleanupBegun ∨
     (waitProberStep runs2 runId2 wait now2).2 = CompletionAction.cleanupSkipped) ∧
    (∀ e3 e4, runs3 runId3 = some e3 →
      (handleTaskCompletion runs3 runId3
          (resolveOrchestrationConfig userConfig3 e3.orchestrationConfig)
          hooks qr pr3 now3).1 runId3 = some e4 →
      (outcomeIsError e4.outcome = true →
        (verificationSettledStep runs3 runId3 userConfig3 hooks qr pr3 now3).2 =
          CompletionAction.noAction) ∧
      (outcomeIsError e4.outcome = false →
        ((verificationSettledStep runs3 runId3 userConfig3 hooks qr pr3 now3).2 =
          CompletionAction.cleanupBegun ∨
         (verificationSettledStep runs3 runId3 userConfig3 hooks qr pr3 now3).2 =
          CompletionAction.cleanupSkipped))) := by
  rw [listenerStep_terminal runs evt now userConfig pr pv entry hs he hph]
  refine ⟨?_, ?_, ?_, ?_, ?_⟩
  · intro hretry
    simp only [hretry, if_true]
    by_cases hmem : evt.runId ∈ pr
    · refine ⟨Or.inl (by simp [hmem]), ?_⟩
      simp [hmem, mapSet_same, terminalEntry]
    · refine ⟨Or.inr (by simp [hmem]), ?_⟩
      simp [hmem, scheduleTaskRetryBegin, mapSet_same, terminalEntry]
  · intro hretry hver
    simp only [hretry, hver, Bool.false_eq_true, if_false, if_true]
    by_cases hmem : evt.runId ∈ pv
    · exact Or.inl (by simp [hmem])
    · exact Or.inr (by simp [hmem])
  · intro hretry hver
    simp only [hretry, hver, Bool.false_eq_true, if_false]
    cases hb : (beginSubagentCleanup
        (mapSet runs evt.runId (terminalEntry entry evt now)) evt.runId).1
    · exact Or.inr (by simp [hb])
    · exact Or.inl (by simp [hb])
  · obtain ⟨e2, he2⟩ := Option.isSome_iff_exists.mp hsome2
    have hcond : ¬ (wait.status ≠ some "ok" ∧ wait.status ≠ some "error") := by
      cases hw with
      | inl h => simp [h]
      | inr h => simp [h]
    simp only [waitProberStep, if_neg hcond, he2]
    cases hb : (beginSubagentCleanup
        (mapSet runs2 runId2 _) runId2).1
    · exact Or.inr (by simp [hb])
    · exact Or.inl (by simp [hb])
  · intro e3 e4 he3 he4
    constructor
    · intro herr
      simp [verificationSettledStep, he3, he4, herr]
    · intro herr
      simp only [verificationSettledStep, he3, he4, herr]
      cases hb : (beginSubagentCleanup
          (handleTaskCompletion runs3 runId3
            (resolveOrchestrationConfig userConfig3 e3.orchestrationConfig)
            hooks qr pr3 now3).1 runId3).1
      · exact Or.inr (by simp [hb])
      · exact Or.inl (by simp [hb])

/-- Witness for C1 as amended at concrete scenarios: a retry-eligible
error event on the listener, a terminal reply on the prober, and a settled
verification on a concrete registry. -/
theorem c1_terminal_policy_witness :
    ((outcomeIsError (terminalEntry { sampleRecord with
          orchestrationConfig := some retryEnabledConfig } c4Event 300).outcome &&
        shouldRetryTask (terminalEntry { sampleRecord with
          orchestrationConfig := some retryEnabledConfig } c4Event 300)
          (resolveOrchestrationConfig none
            (terminalEntry { sampleRecord with
              orchestrationConfig := some retryEnabledConfig } c4Event 300).orchestrationConfig)) = true →
      ((listenerStep retryRegistry c4Event 300 none [] []).2 = CompletionAction.retryPending ∨
       (listenerStep retryRegistry c4Event 300 none [] []).2 = CompletionAction.retryScheduled) ∧
      Option.map (fun e => e.cleanupHandled)
          ((listenerStep retryRegistry c4Event 300 none [] []).1 c4Event.runId) =
        some ({ sampleRecord with
          orchestrationConfig := some retryEnabledConfig }).cleanupHandled) ∧
    ((outcomeIsError (terminalEntry { sampleRecord with
          orchestrationConfig := some retryEnabledConfig } c4Event 300).outcome &&
        shouldRetryTask (terminalEntry { sampleRecord with
          orchestrationConfig := some retryEnabledConfig } c4Event 300)
          (resolveOrchestrationConfig none
            (terminalEntry { sampleRecord with
              orchestrationConfig := some retryEnabledConfig } c4Event 300).orchestrationConfig)) = false →
      (outcomeIsOk (terminalEntry { sampleRecord with
          orchestrationConfig := some retryEnabledConfig } c4Event 300).outcome &&
        (resolveOrchestrationConfig none
          (terminalEntry { sampleRecord with
            orchestrationConfig := some retryEnabledConfig } c4Event 300).orchestrationConfig).verifyCompletion) = true →
      ((listenerStep retryRegistry c4Event 300 none [] []).2 = CompletionAction.verificationPending ∨
       (listenerStep retryRegistry c4Event 300 none [] []).2 = CompletionAction.verificationEntered)) ∧
    ((outcomeIsError (terminalEntry { sampleRecord with
          orchestrationConfig := some retryEnabledConfig } c4Event 300).outcome &&
        shouldRetryTask (terminalEntry { sampleRecord with
          orchestrationConfig := some retryEnabledConfig } c4Event 300)
          (resolveOrchestrationConfig none
            (terminalEntry { sampleRecord with
              orchestrationConfig := some retryEnabledConfig } c4Event 300).orchestrationConfig)) = false →
      (outcomeIsOk (terminalEntry { sampleRecord with
          orchestrationConfig := some retryEnabledConfig } c4Event 300).outcome &&
        (resolveOrchestrationConfig none
          (terminalEntry { sampleRecord with
            orchestrationConfig := some retryEnabledConfig } c4Event 300).orchestrationConfig).verifyCompletion) = false →
      ((listenerStep retryRegistry c4Event 300 none [] []).2 = CompletionAction.cleanupBegun ∨
       (listenerStep retryRegistry c4Event 300 none [] []).2 = CompletionAction.cleanupSkipped)) ∧
    ((waitProberStep sampleRegistry "run-1" c1Wait 300).2 = CompletionAction.cleanupBegun ∨
     (waitProberStep sampleRegistry "run-1" c1Wait 300).2 = CompletionAction.cleanupSkipped) ∧
    (∀ e3 e4, c6Registry "run-1" = some e3 →
      (handleTaskCompletion c6Registry "run-1"
          (resolveOrchestrationConfig none e3.orchestrationConfig)
          (fun _ => HookBehavior.missing) (Except.ok none) [] 300).1 "run-1" = some e4 →
      (outcomeIsError e4.outcome = true →
        (verificationSettledStep c6Registry "run-1" none
          (fun _ => HookBehavior.missing) (Except.ok none) [] 300).2 =
          CompletionAction.noAction) ∧
      (outcomeIsError e4.outcome = false →
        ((verificationSettledStep c6Registry "run-1" none
          (fun _ => HookBehavior.missing) (Except.ok none) [] 300).2 =
          CompletionAction.cleanupBegun ∨
         (verificationSettledStep c6Registry "run-1" none
          (fun _ => HookBehavior.missing) (Except.ok none) [] 300).2 =
          CompletionAction.cleanupSkipped))) :=
  c1_terminal_policy retryRegistry c4Event 300 none [] []
    { sampleRecord with orchestrationConfig := some retryEnabledConfig }
    sampleRegistry "run-1" c1Wait 300
    c6Registry "run-1" none (fun _ => HookBehavior.missing) (Except.ok none) [] 300
    (by rfl) (by rfl) (Or.inl (by rfl)) (Or.inr (by rfl)) (by decide)

theorem beginCleanup_completed (m : RegistryMap) (k : String) (e : SubagentRunRecord)
    (he : m k = some e) (hcc : qTruthy e.cleanupCompletedAt = true) :
    beginSubagentCleanup m k = (false, m) := by
  simp [beginSubagentCleanup, he, hcc]

theorem verifyTask_snd_fields (entry : SubagentRunRecord)
    (config : RequiredOrchestrationConfig) (hooks : String → HookBehavior)
    (qr : Except String (Option String)) :
    (verifyTaskCompletion entry config hooks qr).2.cleanupCompletedAt =
        entry.cleanupCompletedAt ∧
    (verifyTaskCompletion entry config hooks qr).2.cleanupHandled = entry.cleanupHandled ∧
    (verifyTaskCompletion entry config hooks qr).2.retryCount = entry.retryCount ∧
    (verifyTaskCompletion entry config hooks qr).2.maxRetries = entry.maxRetries ∧
    (verifyTaskCompletion entry config hooks qr).2.orchestrationConfig =
        entry.orchestrationConfig ∧
    (verifyTaskCompletion entry config hooks qr).2.outcome = entry.outcome := by
  by_cases h1 : config.verifyCompletion
  · by_cases h2 : sTruthy config.verificationHook
    · cases h3 : hooks config.verificationHook <;>
        simp [verifyTaskCompletion, h1, h2, h3]
    · by_cases h4 : outcomeIsError entry.outcome
      · simp [verifyTaskCompletion, h1, h2, h4]
      · by_cases h5 : sTruthy config.verificationPrompt
        · cases h6 : verifyWithAgent qr <;>
            simp [verifyTaskCompletion, h1, h2, h4, h5, h6]
        · simp [verifyTaskCompletion, h1, h2, h4, h5]
  · simp [verifyTaskCompletion, h1]

theorem handle_lookup_isSome (runs : RegistryMap) (runId : String)
    (config : RequiredOrchestrationConfig) (hooks : String → HookBehavior)
    (qr : Except String (Option String)) (pending : List String) (now : ℚ)
    (entry : SubagentRunRecord) (he : runs runId = some entry) :
    ((handleTaskCompletion runs runId config hooks qr pending now).1 runId).isSome = true := by
  by_cases herr : outcomeIsError entry.outcome
  · simp [handleTaskCompletion, he, herr, mapSet_same]
  · by_cases hvc : config.verifyCompletion
    · by_cases hp : (verifyTaskCompletion entry config hooks qr).1.passed
      · simp [handleTaskCompletion, he, herr, hvc, hp, mapSet_same]
      · by_cases hrv : config.retryOnVerificationFailure
        · by_cases hsr : shouldRetryTask
            { { (verifyTaskCompletion entry config hooks qr).2 with
                verificationResult := some VerificationVerdict.failed } with
              outcome := some (SubagentRunOutcome.error (some ("Verification failed: " ++
                (verifyTaskCompletion entry config hooks qr).1.reason.getD "undefined"))) }
            config
          · by_cases hmem : runId ∈ pending
            · simp [handleTaskCompletion, he, herr, hvc, hp, hrv, hsr, hmem, mapSet_same]
            · simp [handleTaskCompletion, he, herr, hvc, hp, hrv, hsr, hmem,
                scheduleTaskRetryBegin, mapSet_same]
          · simp [handleTaskCompletion, he, herr, hvc, hp, hrv, hsr, mapSet_same]
        · simp [handleTaskCompletion, he, herr, hvc, hp, hrv, mapSet_same]
    · simp [handleTaskCompletion, he, herr, hvc, mapSet_same]

theorem handle_fields_of_lookup (runs : RegistryMap) (runId : String)
    (config : RequiredOrchestrationConfig) (hooks : String → HookBehavior)
    (qr : Except String (Option String)) (pending : List String) (now : ℚ)
    (entry e2 : SubagentRunRecord) (he : runs runId = some entry)
    (hl : (handleTaskCompletion runs runId config hooks qr pending now).1 runId = some e2) :
    e2.cleanupCompletedAt = entry.cleanupCompletedAt ∧
    e2.cleanupHandled = entry.cleanupHandled := by
  obtain ⟨hf1, hf2, hf3, hf4, hf5, hf6⟩ := verifyTask_snd_fields entry config hooks qr
  by_cases herr : outcomeIsError entry.outcome
  · simp [handleTaskCompletion, he, herr, mapSet_same] at hl
    subst hl
    exact ⟨rfl, rfl⟩
  · by_cases hvc : config.verifyCompletion
    · by_cases hp : (verifyTaskCompletion entry config hooks qr).1.passed
      · simp [handleTaskCompletion, he, herr, hvc, hp, mapSet_same] at hl
        subst hl
        exact ⟨hf1, hf2⟩
      · by_cases hrv : config.retryOnVerificationFailure
        · by_cases hsr : shouldRetryTask
            { { (verifyTaskCompletion entry config hooks qr).2 with
                verificationResult := some VerificationVerdict.failed } with
              outcome := some (SubagentRunOutcome.error (some ("Verification failed: " ++
                (verifyTaskCompletion entry config hooks qr).1.reason.getD "undefined"))) }
            config
          · by_cases hmem : runId ∈ pending
            · simp [handleTaskCompletion, he, herr, hvc, hp, hrv, hsr, hmem,
                mapSet_same] at hl
              subst hl
              exact ⟨hf1, hf2⟩
            · simp [handleTaskCompletion, he, herr, hvc, hp, hrv, hsr, hmem,
                scheduleTaskRetryBegin, mapSet_same] at hl
              subst hl
              exact ⟨hf1, hf2⟩
          · simp [handleTaskCompletion, he, herr, hvc, hp, hrv, hsr, mapSet_same] at hl
            subst hl
            exact ⟨hf1, hf2⟩
        · simp [handleTaskCompletion, he, herr, hvc, hp, hrv, mapSet_same] at hl
          subst hl
          exact ⟨hf1, hf2⟩
    · simp [handleTaskCompletion, he, herr, hvc, mapSet_same] at hl
      subst hl
      exact ⟨rfl, rfl⟩

theorem proberEntry_cleanup_fields (entry : SubagentRunRecord) (wait : WaitReply) (now : ℚ) :
    (proberEntry entry wait now).cleanupCompletedAt = entry.cleanupCompletedAt ∧
    (proberEntry entry wait now).cleanupHandled = entry.cleanupHandled := by
  rcases hsa : wait.startedAt with _ | s <;> rcases hen : wait.endedAt with _ | t <;>
    simp only [proberEntry, hsa, hen] <;> split_ifs <;> exact ⟨rfl, rfl⟩

theorem proberStep_on_completed (runs2 : RegistryMap) (runId2 : String) (wait : WaitReply)
    (now2 : ℚ) (entry2 : SubagentRunRecord)
    (he2 : runs2 runId2 = some entry2) (hcc2 : qTruthy entry2.cleanupCompletedAt = true) :
    Option.map (fun e => (e.cleanupCompletedAt, e.cleanupHandled))
        ((waitProberStep runs2 runId2 wait now2).1 runId2) =
      some (entry2.cleanupCompletedAt, entry2.cleanupHandled) ∧
    (waitProberStep runs2 runId2 wait now2).2 ≠ CompletionAction.cleanupBegun := by
  by_cases hw : wait.status ≠ some "ok" ∧ wait.status ≠ some "error"
  · constructor
    · simp [waitProberStep, hw, he2]
    · simp [waitProberStep, hw]
  · obtain ⟨hpa, hpb⟩ := proberEntry_cleanup_fields entry2 wait now2
    have hccE : qTruthy (proberEntry entry2 wait now2).cleanupCompletedAt = true := by
      rw [hpa]
      exact hcc2
    have hb := beginCleanup_completed (mapSet runs2 runId2 (proberEntry entry2 wait now2))
      runId2 (proberEntry entry2 wait now2)
      (mapSet_same runs2 runId2 (proberEntry entry2 wait now2)) hccE
    constructor
    · simp [waitProberStep, if_neg hw, he2, hb, mapSet_same, hpa, hpb]
    · simp [waitProberStep, if_neg hw, he2, hb]

theorem terminalEntry_fields (entry : SubagentRunRecord) (evt : AgentEvent) (now : ℚ) :
    (terminalEntry entry evt now).cleanupCompletedAt = entry.cleanupCompletedAt ∧
    (terminalEntry entry evt now).cleanupHandled = entry.cleanupHandled ∧
    (terminalEntry entry evt now).retryCount = entry.retryCount ∧
    (terminalEntry entry evt now).maxRetries = entry.maxRetries ∧
    (terminalEntry entry evt now).orchestrationConfig = entry.orchestrationConfig :=
  ⟨rfl, rfl, rfl, rfl, rfl⟩

theorem listenerStep_on_completed (runs : RegistryMap) (evt : AgentEvent) (now : ℚ)
    (userConfig : Option SubagentOrchestrationConfig) (pr pv : List String)
    (entry : SubagentRunRecord)
    (he : runs evt.runId = some entry) (hcc : qTruthy entry.cleanupCompletedAt = true) :
    Option.map (fun e => (e.cleanupCompletedAt, e.cleanupHandled))
        ((listenerStep runs evt now userConfig pr pv).1 evt.runId) =
      some (entry.cleanupCompletedAt, entry.cleanupHandled) ∧
    (listenerStep runs evt now userConfig pr pv).2 ≠ CompletionAction.cleanupBegun := by
  by_cases h1 : evt.stream ≠ "lifecycle"
  · constructor
    · simp [listenerStep, h1, he]
    · simp [listenerStep, h1]
  · have h1s : evt.stream = "lifecycle" := not_ne_iff.mp h1
    by_cases h2 : evt.phase = some "start"
    · rcases hsa : evt.startedAt with _ | s
      · constructor
        · simp [listenerStep, h1, he, h2, hsa]
        · simp [listenerStep, h1, he, h2, hsa]
      · by_cases hz : s = 0
        · constructor
          · simp [listenerStep, h1, he, h2, hsa, hz]
          · simp [listenerStep, h1, he, h2, hsa, hz]
        · constructor
          · simp [listenerStep, h1, he, h2, hsa, hz, mapSet_same]
          · simp [listenerStep, h1, he, h2, hsa, hz]
    · by_cases h3 : evt.phase ≠ some "end" ∧ evt.phase ≠ some "error"
      · constructor
        · simp [listenerStep, h1, he, h2, h3]
        · simp [listenerStep, h1, he, h2, h3]
      · have hph : evt.phase = some "end" ∨ evt.phase = some "error" := by
          rcases not_and_or.mp h3 with h | h
          · exact Or.inl (not_ne_iff.mp h)
          · exact Or.inr (not_ne_iff.mp h)
        rw [listenerStep_terminal runs evt now userConfig pr pv entry h1s he hph]
        obtain ⟨tf1, tf2, tf3, tf4, tf5⟩ := terminalEntry_fields entry evt now
        have hccE : qTruthy (terminalEntry entry evt now).cleanupCompletedAt = true := by
          rw [tf1]
          exact hcc
        have hb := beginCleanup_completed (mapSet runs evt.runId (terminalEntry entry evt now))
          evt.runId (terminalEntry entry evt now)
          (mapSet_same runs evt.runId (terminalEntry entry evt now)) hccE
        by_cases hbr : (outcomeIsError (terminalEntry entry evt now).outcome &&
            shouldRetryTask (terminalEntry entry evt now)
              (resolveOrchestrationConfig userConfig
                (terminalEntry entry evt now).orchestrationConfig)) = true
        · by_cases hmem : evt.runId ∈ pr
          · constructor
            · simp [hbr, hmem, mapSet_same, tf1, tf2]
            · simp [hbr, hmem]
          · constructor
            · simp [hbr, hmem, scheduleTaskRetryBegin, mapSet_same, tf1, tf2]
            · simp [hbr, hmem]
        · by_cases hv : (outcomeIsOk (terminalEntry entry evt now).outcome &&
              (resolveOrchestrationConfig userConfig
                (terminalEntry entry evt now).orchestrationConfig).verifyCompletion) = true
          · by_cases hmem : evt.runId ∈ pv
            · constructor
              · simp [hbr, hv, hmem, mapSet_same, tf1, tf2]
              · simp [hbr, hv, hmem]
            · constructor
              · simp [hbr, hv, hmem, mapSet_same, tf1, tf2]
              · simp [hbr, hv, hmem]
          · constructor
            · simp [hbr, hv, hb, mapSet_same, tf1, tf2]
            · simp [hbr, hv, hb]

theorem verificationStep_on_completed (runs4 : RegistryMap) (runId4 : String)
    (userConfig4 : Option SubagentOrchestrationConfig) (hooks : String → HookBehavior)
    (qr : Except String (Option String)) (pr4 : List String) (now4 : ℚ)
    (entry4 : SubagentRunRecord)
    (he4 : runs4 runId4 = some entry4) (hcc4 : qTruthy entry4.cleanupCompletedAt = true) :
    Option.map (fun e => (e.cleanupCompletedAt, e.cleanupHandled))
        ((verificationSettledStep runs4 runId4 userConfig4 hooks qr pr4 now4).1 runId4) =
      some (entry4.cleanupCompletedAt, entry4.cleanupHandled) ∧
    (verificationSettledStep runs4 runId4 userConfig4 hooks qr pr4 now4).2 ≠
      CompletionAction.cleanupBegun := by
  obtain ⟨e2, he2⟩ := Option.isSome_iff_exists.mp (handle_lookup_isSome runs4 runId4
    (resolveOrchestrationConfig userConfig4 entry4.orchestrationConfig) hooks qr pr4 now4
    entry4 he4)
  obtain ⟨hfa, hfb⟩ := handle_fields_of_lookup runs4 runId4
    (resolveOrchestrationConfig userConfig4 entry4.orchestrationConfig) hooks qr pr4 now4
    entry4 e2 he4 he2
  have hcc2 : qTruthy e2.cleanupCompletedAt = true := by rw [hfa]; exact hcc4
  have hb := beginCleanup_completed
    (handleTaskCompletion runs4 runId4
      (resolveOrchestrationConfig userConfig4 entry4.orchestrationConfig)
      hooks qr pr4 now4).1 runId4 e2 he2 hcc2
  by_cases herr : outcomeIsError e2.outcome
  · constructor
    · simp [verificationSettledStep, he4, he2, herr, hfa, hfb]
    · simp [verificationSettledStep, he4, he2, herr]
  · constructor
    · simp [verificationSettledStep, he4, he2, herr, hb, hfa, hfb]
    · simp [verificationSettledStep, he4, he2, herr, hb]

/-- Counterexample to claim C4: a terminal end lifecycle event arriving on
a record whose cleanupCompletedAt is already set still overwrites endedAt
(2 becomes 10), so the record is not left unchanged. -/
theorem c4_counterexample :
    c4Record.cleanupCompletedAt = some 5 ∧
    c4Record.endedAt = some 2 ∧
    Option.map (fun e => e.endedAt)
        ((listenerStep c4Registry c4Event 50 none [] []).1 "run-1") = some (some 10) ∧
    some (some (10 : ℚ)) ≠ some (some (2 : ℚ)) := by
  refine ⟨by decide, by decide, by decide, by decide⟩

/-- Claim C4 as amended: after cleanupCompletedAt is set, lifecycle
events, prober replies and the verification flow may still rewrite the
run data fields (startedAt, endedAt, outcome, verification fields), but
none of them re-opens cleanup: cleanupCompletedAt and cleanupHandled are
preserved, beginSubagentCleanup refuses, no step reports cleanupBegun,
and a pending retry respawn aborts without touching the registry. -/
theorem c4_no_cleanup_after_completion
    (runs : RegistryMap) (evt : AgentEvent) (now : ℚ)
    (userConfig : Option SubagentOrchestrationConfig) (pr pv : List String)
    (entry : SubagentRunRecord)
    (runs2 : RegistryMap) (runId2 : String) (wait : WaitReply) (now2 : ℚ)
    (entry2 : SubagentRunRecord)
    (runs3 : RegistryMap) (runId3 : String) (now3 : ℚ) (entry3 : SubagentRunRecord)
    (runs4 : RegistryMap) (runId4 : String)
    (userConfig4 : Option SubagentOrchestrationConfig) (hooks : String → HookBehavior)
    (qr : Except String (Option String)) (pr4 : List String) (now4 : ℚ)
    (entry4 : SubagentRunRecord)
    (he : runs evt.runId = some entry) (hcc : qTruthy entry.cleanupCompletedAt = true)
    (he2 : runs2 runId2 = some entry2) (hcc2 : qTruthy entry2.cleanupCompletedAt = true)
    (he3 : runs3 runId3 = some entry3) (hcc3 : qTruthy entry3.cleanupCompletedAt = true)
    (he4 : runs4 runId4 = some entry4) (hcc4 : qTruthy entry4.cleanupCompletedAt = true) :
    (Option.map (fun e => (e.cleanupCompletedAt, e.cleanupHandled))
        ((listenerStep runs evt now userConfig pr pv).1 evt.runId) =
      some (entry.cleanupCompletedAt, entry.cleanupHandled) ∧
     (listenerStep runs evt now userConfig pr pv).2 ≠ CompletionAction.cleanupBegun) ∧
    (Option.map (fun e => (e.cleanupCompletedAt, e.cleanupHandled))
        ((waitProberStep runs2 runId2 wait now2).1 runId2) =
      some (entry2.cleanupCompletedAt, entry2.cleanupHandled) ∧
     (waitProberStep runs2 runId2 wait now2).2 ≠ CompletionAction.cleanupBegun) ∧
    scheduleTaskRetryRespawn runs3 runId3 now3 = runs3 ∧
    beginSubagentCleanup runs3 runId3 = (false, runs3) ∧
    (Option.map (fun e => (e.cleanupCompletedAt, e.cleanupHandled))
        ((verificationSettledStep runs4 runId4 userConfig4 hooks qr pr4 now4).1 runId4) =
      some (entry4.cleanupCompletedAt, entry4.cleanupHandled) ∧
     (verificationSettledStep runs4 runId4 userConfig4 hooks qr pr4 now4).2 ≠
       CompletionAction.cleanupBegun) := by
  refine ⟨?_, ?_, ?_, ?_, ?_⟩
  · exact listenerStep_on_completed runs evt now userConfig pr pv entry he hcc
  · exact proberStep_on_completed runs2 runId2 wait now2 entry2 he2 hcc2
  · simp [scheduleTaskRetryRespawn, he3, hcc3]
  · exact beginCleanup_completed runs3 runId3 entry3 he3 hcc3
  · exact verificationStep_on_completed runs4 runId4 userConfig4 hooks qr pr4 now4
      entry4 he4 hcc4

/-- Witness for C4 as amended at concrete completed records and signals. -/
theorem c4_no_cleanup_after_completion_witness :
    (Option.map (fun e => (e.cleanupCompletedAt, e.cleanupHandled))
        ((listenerStep c4Registry c4Event 50 none [] []).1 c4Event.runId) =
      some (c4Record.cleanupCompletedAt, c4Record.cleanupHandled) ∧
     (listenerStep c4Registry c4Event 50 none [] []).2 ≠ CompletionAction.cleanupBegun) ∧
    (Option.map (fun e => (e.cleanupCompletedAt, e.cleanupHandled))
        ((waitProberStep c4Registry "run-1" c1Wait 300).1 "run-1") =
      some (c4Record.cleanupCompletedAt, c4Record.cleanupHandled) ∧
     (waitProberStep c4Registry "run-1" c1Wait 300).2 ≠ CompletionAction.cleanupBegun) ∧
    scheduleTaskRetryRespawn c4Registry "run-1" 400 = c4Registry ∧
    beginSubagentCleanup c4Registry "run-1" = (false, c4Registry) ∧
    (Option.map (fun e => (e.cleanupCompletedAt, e.cleanupHandled))
        ((verificationSettledStep c4Registry "run-1" none
          (fun _ => HookBehavior.missing) (Except.ok none) [] 500).1 "run-1") =
      some (c4Record.cleanupCompletedAt, c4Record.cleanupHandled) ∧
     (verificationSettledStep c4Registry "run-1" none
        (fun _ => HookBehavior.missing) (Except.ok none) [] 500).2 ≠
       CompletionAction.cleanupBegun) :=
  c4_no_cleanup_after_completion c4Registry c4Event 50 none [] [] c4Record
    c4Registry "run-1" c1Wait 300 c4Record
    c4Registry "run-1" 400 c4Record
    c4Registry "run-1" none (fun _ => HookBehavior.missing) (Except.ok none) [] 500 c4Record
    (by rfl) (by decide) (by rfl) (by decide) (by rfl) (by decide) (by rfl) (by decide)

theorem mapDelete_other (m : RegistryMap) (k k2 : String) (h : k2 ≠ k) :
    mapDelete m k k2 = m k2 := by
  simp [mapDelete, h]

theorem recordOk_of_eq_fields (e e' : SubagentRunRecord)
    (h1 : e'.retryCount = e.retryCount) (h2 : e'.maxRetries = e.maxRetries)
    (h3 : e'.orchestrationConfig = e.orchestrationConfig) (h : RecordOk e) : RecordOk e' := by
  obtain ⟨m, hm, hoc, hle⟩ := h
  refine ⟨m, ?_, ?_, ?_⟩
  · rw [h2]
    exact hm
  · rw [h3]
    exact hoc
  · rw [h1]
    exact hle

theorem registryOk_mapSet (s : RegistryMap) (k : String) (v : SubagentRunRecord)
    (hs : RegistryOk s) (hv : RecordOk v) : RegistryOk (mapSet s k v) := by
  intro id e he
  by_cases hk : id = k
  · subst hk
    rw [mapSet_same] at he
    injection he with h
    exact h ▸ hv
  · rw [mapSet_other _ _ _ _ hk] at he
    exact hs id e he

theorem registryOk_mapDelete (s : RegistryMap) (k : String)
    (hs : RegistryOk s) : RegistryOk (mapDelete s k) := by
  intro id e he
  by_cases hk : id = k
  · subst hk
    simp [mapDelete] at he
  · rw [mapDelete_other _ _ _ hk] at he
    exact hs id e he

theorem resolveConfig_maxRetries_of_snapshot (u : Option SubagentOrchestrationConfig)
    (oc : SubagentOrchestrationConfig) (m : Nat) (hm : oc.maxRetries = some m) :
    (resolveOrchestrationConfig u (some oc)).maxRetries = m := by
  simp [resolveOrchestrationConfig, resolveField, hm]

theorem shouldRetry_lt (entry : SubagentRunRecord) (config : RequiredOrchestrationConfig)
    (h : shouldRetryTask entry config = true) :
    entry.retryCount.getD 0 < config.maxRetries := by
  by_cases h1 : config.retryOnFailure
  · by_cases h2 : entry.retryCount.getD 0 ≥ config.maxRetries
    · simp [shouldRetryTask, h1, h2] at h
    · omega
  · simp [shouldRetryTask, h1] at h

theorem registryOk_scheduleBegin (s : RegistryMap) (runId : String)
    (userConfig : Option SubagentOrchestrationConfig) (now : ℚ) (entry : SubagentRunRecord)
    (hs : RegistryOk s) (he : s runId = some entry)
    (hg : shouldRetryTask entry
      (resolveOrchestrationConfig userConfig entry.orchestrationConfig) = true) :
    RegistryOk (scheduleTaskRetryBegin s runId
      (resolveOrchestrationConfig userConfig entry.orchestrationConfig) now) := by
  obtain ⟨m, hm, ⟨oc, hoc, hocm⟩, hle⟩ := hs runId entry he
  have hcm : (resolveOrchestrationConfig userConfig entry.orchestrationConfig).maxRetries = m := by
    rw [hoc]
    exact resolveConfig_maxRetries_of_snapshot userConfig oc m hocm
  have hlt := shouldRetry_lt entry _ hg
  rw [hcm] at hlt
  simp only [scheduleTaskRetryBegin, he]
  exact registryOk_mapSet s runId _ hs ⟨m, hm, ⟨oc, hoc, hocm⟩, Nat.succ_le_of_lt hlt⟩

theorem registryOk_register (s : RegistryMap) (p : RegisterParams) (now : ℚ)
    (userConfig : Option SubagentOrchestrationConfig) (archiveAfterMinutes : Option ℚ)
    (hs : RegistryOk s) :
    RegistryOk (registerSubagentRun s p now userConfig archiveAfterMinutes) := by
  cases hoc : p.orchestrationConfig with
  | none =>
    simp only [registerSubagentRun, hoc]
    exact registryOk_mapSet _ _ _ hs ⟨_, rfl, ⟨_, rfl, rfl⟩, Nat.zero_le _⟩
  | some oc =>
    simp only [registerSubagentRun, hoc]
    exact registryOk_mapSet _ _ _ hs ⟨_, rfl, ⟨_, rfl, rfl⟩, Nat.zero_le _⟩

theorem registryOk_beginCleanup (s : RegistryMap) (k : String)
    (hs : RegistryOk s) : RegistryOk (beginSubagentCleanup s k).2 := by
  cases he : s k with
  | none => simpa [beginSubagentCleanup, he] using hs
  | some e =>
    by_cases hc : qTruthy e.cleanupCompletedAt
    · simpa [beginSubagentCleanup, he, hc] using hs
    · by_cases hh : e.cleanupHandled.getD false
      · simpa [beginSubagentCleanup, he, hc, hh] using hs
      · have := registryOk_mapSet s k { e with cleanupHandled := some true } hs
          (recordOk_of_eq_fields e _ rfl rfl rfl (hs k e he))
        simpa [beginSubagentCleanup, he, hc, hh] using this

theorem registryOk_listenerStep (s : RegistryMap) (evt : AgentEvent) (now : ℚ)
    (userConfig : Option SubagentOrchestrationConfig) (pr pv : List String)
    (hs : RegistryOk s) : RegistryOk (listenerStep s evt now userConfig pr pv).1 := by
  by_cases h1 : evt.stream ≠ "lifecycle"
  · simpa [listenerStep, h1] using hs
  · cases he : s evt.runId with
    | none => simpa [listenerStep, h1, he] using hs
    | some entry =>
      by_cases h2 : evt.phase = some "start"
      · cases hsa : evt.startedAt with
        | none => simpa [listenerStep, h1, he, h2, hsa] using hs
        | some v =>
          by_cases hz : v = 0
          · simpa [listenerStep, h1, he, h2, hsa, hz] using hs
          · have := registryOk_mapSet s evt.runId { entry with startedAt := some v } hs
              (recordOk_of_eq_fields entry _ rfl rfl rfl (hs evt.runId entry he))
            simpa [listenerStep, h1, he, h2, hsa, hz] using this
      · by_cases h3 : evt.phase ≠ some "end" ∧ evt.phase ≠ some "error"
        · simpa [listenerStep, h1, he, h2, h3] using hs
        · have h1s : evt.stream = "lifecycle" := not_ne_iff.mp h1
          have hph : evt.phase = some "end" ∨ evt.phase = some "error" := by
            rcases not_and_or.mp h3 with h | h
            · exact Or.inl (not_ne_iff.mp h)
            · exact Or.inr (not_ne_iff.mp h)
          rw [listenerStep_terminal s evt now userConfig pr pv entry h1s he hph]
          obtain ⟨tf1, tf2, tf3, tf4, tf5⟩ := terminalEntry_fields entry evt now
          have hE : RecordOk (terminalEntry entry evt now) :=
            recordOk_of_eq_fields entry _ tf3 tf4 tf5 (hs evt.runId entry he)
          have hs1 : RegistryOk (mapSet s evt.runId (terminalEntry entry evt now)) :=
            registryOk_mapSet _ _ _ hs hE
          by_cases hbr : (outcomeIsError (terminalEntry entry evt now).outcome &&
              shouldRetryTask (terminalEntry entry evt now)
                (resolveOrchestrationConfig userConfig
                  (terminalEntry entry evt now).orchestrationConfig)) = true
          · by_cases hmem : evt.runId ∈ pr
            · simpa [hbr, hmem] using hs1
            · have hg : shouldRetryTask (terminalEntry entry evt now)
                  (resolveOrchestrationConfig userConfig
                    (terminalEntry entry evt now).orchestrationConfig) = true := by
                have hbr2 := hbr
                simp only [Bool.and_eq_true] at hbr2
                exact hbr2.2
              have := registryOk_scheduleBegin
                (mapSet s evt.runId (terminalEntry entry evt now)) evt.runId userConfig now
                (terminalEntry entry evt now) hs1
                (mapSet_same s evt.runId (terminalEntry entry evt now)) hg
              simpa [hbr, hmem] using this
          · by_cases hv : (outcomeIsOk (terminalEntry entry evt now).outcome &&
                (resolveOrchestrationConfig userConfig
                  (terminalEntry entry evt now).orchestrationConfig).verifyCompletion) = true
            · by_cases hmem : evt.runId ∈ pv
              · simpa [hbr, hv, hmem] using hs1
              · simpa [hbr, hv, hmem] using hs1
            · have := registryOk_beginCleanup
                (mapSet s evt.runId (terminalEntry entry evt now)) evt.runId hs1
              simpa [hbr, hv] using this

theorem proberEntry_retry_fields (entry : SubagentRunRecord) (wait : WaitReply) (now : ℚ) :
    (proberEntry entry wait now).retryCount = entry.retryCount ∧
    (proberEntry entry wait now).maxRetries = entry.maxRetries ∧
    (proberEntry entry wait now).orchestrationConfig = entry.orchestrationConfig := by
  rcases hsa : wait.startedAt with _ | s <;> rcases hen : wait.endedAt with _ | t <;>
    simp only [proberEntry, hsa, hen] <;> split_ifs <;> exact ⟨rfl, rfl, rfl⟩

theorem registryOk_proberStep (s : RegistryMap) (runId : String) (wait : WaitReply)
    (now : ℚ) (hs : RegistryOk s) : RegistryOk (waitProberStep s runId wait now).1 := by
  by_cases hw : wait.status ≠ some "ok" ∧ wait.status ≠ some "error"
  · simpa [waitProberStep, hw] using hs
  · cases he : s runId with
    | none => simpa [waitProberStep, hw, he] using hs
    | some entry =>
      obtain ⟨pf1, pf2, pf3⟩ := proberEntry_retry_fields entry wait now
      have hs1 : RegistryOk (mapSet s runId (proberEntry entry wait now)) :=
        registryOk_mapSet _ _ _ hs
          (recordOk_of_eq_fields entry _ pf1 pf2 pf3 (hs runId entry he))
      have := registryOk_beginCleanup (mapSet s runId (proberEntry entry wait now)) runId hs1
      simpa [waitProberStep, hw, he] using this

theorem registryOk_handle (runs : RegistryMap) (runId : String)
    (userConfig : Option SubagentOrchestrationConfig) (hooks : String → HookBehavior)
    (qr : Except String (Option String)) (pending : List String) (now : ℚ)
    (entry : SubagentRunRecord) (hs : RegistryOk runs) (he : runs runId = some entry) :
    RegistryOk (handleTaskCompletion runs runId
      (resolveOrchestrationConfig userConfig entry.orchestrationConfig)
      hooks qr pending now).1 := by
  obtain ⟨vf1, vf2, vf3, vf4, vf5, vf6⟩ := verifyTask_snd_fields entry
    (resolveOrchestrationConfig userConfig entry.orchestrationConfig) hooks qr
  have hOkE := hs runId entry he
  by_cases herr : outcomeIsError entry.outcome
  · have := registryOk_mapSet runs runId
      { entry with verificationResult := some VerificationVerdict.skipped } hs
      (recordOk_of_eq_fields entry _ rfl rfl rfl hOkE)
    simpa [handleTaskCompletion, he, herr] using this
  · by_cases hvc : (resolveOrchestrationConfig userConfig
        entry.orchestrationConfig).verifyCompletion
    · by_cases hp : (verifyTaskCompletion entry
          (resolveOrchestrationConfig userConfig entry.orchestrationConfig) hooks qr).1.passed
      · have := registryOk_mapSet runs runId
          { (verifyTaskCompletion entry
              (resolveOrchestrationConfig userConfig entry.orchestrationConfig) hooks qr).2 with
            verificationResult := some VerificationVerdict.passed } hs
          (recordOk_of_eq_fields entry _ vf3 vf4 vf5 hOkE)
        simpa [handleTaskCompletion, he, herr, hvc, hp] using this
      · by_cases hrv : (resolveOrchestrationConfig userConfig
            entry.orchestrationConfig).retryOnVerificationFailure
        · have hOk3 : RecordOk { { (verifyTaskCompletion entry
              (resolveOrchestrationConfig userConfig entry.orchestrationConfig) hooks qr).2 with
                verificationResult := some VerificationVerdict.failed } with
              outcome := some (SubagentRunOutcome.error (some ("Verification failed: " ++
                (verifyTaskCompletion entry
                  (resolveOrchestrationConfig userConfig entry.orchestrationConfig)
                  hooks qr).1.reason.getD "undefined"))) } :=
            recordOk_of_eq_fields entry _ vf3 vf4 vf5 hOkE
          have hs3 : RegistryOk (mapSet runs runId
              { { (verifyTaskCompletion entry
                  (resolveOrchestrationConfig userConfig entry.orchestrationConfig)
                  hooks qr).2 with
                verificationResult := some VerificationVerdict.failed } with
                outcome := some (SubagentRunOutcome.error (some ("Verification failed: " ++
                  (verifyTaskCompletion entry
                    (resolveOrchestrationConfig userConfig entry.orchestrationConfig)
                    hooks qr).1.reason.getD "undefined"))) }) :=
            registryOk_mapSet _ _ _ hs hOk3
          by_cases hsr : shouldRetryTask
              { { (verifyTaskCompletion entry
                  (resolveOrchestrationConfig userConfig entry.orchestrationConfig)
                  hooks qr).2 with
                verificationResult := some VerificationVerdict.failed } with
                outcome := some (SubagentRunOutcome.error (some ("Verification failed: " ++
                  (verifyTaskCompletion entry
                    (resolveOrchestrationConfig userConfig entry.orchestrationConfig)
                    hooks qr).1.reason.getD "undefined"))) }
              (resolveOrchestrationConfig userConfig entry.orchestrationConfig) = true
          · by_cases hmem : runId ∈ pending
            · simpa [handleTaskCompletion, he, herr, hvc, hp, hrv, hsr, hmem] using hs3
            · have hoc3 : ({ { (verifyTaskCompletion entry
                    (resolveOrchestrationConfig userConfig entry.orchestrationConfig)
                    hooks qr).2 with
                  verificationResult := some VerificationVerdict.failed } with
                  outcome := some (SubagentRunOutcome.error (some ("Verification failed: " ++
                    (verifyTaskCompletion entry
                      (resolveOrchestrationConfig userConfig entry.orchestrationConfig)
                      hooks qr).1.reason.getD "undefined"))) } :
                  SubagentRunRecord).orchestrationConfig = entry.orchestrationConfig := vf5
              have hg : shouldRetryTask
                  { { (verifyTaskCompletion entry
                      (resolveOrchestrationConfig userConfig entry.orchestrationConfig)
                      hooks qr).2 with
                    verificationResult := some VerificationVerdict.failed } with
                    outcome := some (SubagentRunOutcome.error (some ("Verification failed: " ++
                      (verifyTaskCompletion entry
                        (resolveOrchestrationConfig userConfig entry.orchestrationConfig)
                        hooks qr).1.reason.getD "undefined"))) }
                  (resolveOrchestrationConfig userConfig
                    ({ { (verifyTaskCompletion entry
                        (resolveOrchestrationConfig userConfig entry.orchestrationConfig)
                        hooks qr).2 with
                      verificationResult := some VerificationVerdict.failed } with
                      outcome := some (SubagentRunOutcome.error (some ("Verification failed: " ++
                        (verifyTaskCompletion entry
                          (resolveOrchestrationConfig userConfig entry.orchestrationConfig)
                          hooks qr).1.reason.getD "undefined"))) } :
                      SubagentRunRecord).orchestrationConfig) = true := by
                rw [hoc3]
                exact hsr
              have hres := registryOk_scheduleBegin _ runId userConfig now _ hs3
                (mapSet_same _ _ _) hg
              rw [hoc3] at hres
              simpa [handleTaskCompletion, he, herr, hvc, hp, hrv, hsr, hmem] using hres
          · simpa [handleTaskCompletion, he, herr, hvc, hp, hrv, hsr] using hs3
        · have := registryOk_mapSet runs runId
            { (verifyTaskCompletion entry
                (resolveOrchestrationConfig userConfig entry.orchestrationConfig)
                hooks qr).2 with
              verificationResult := some VerificationVerdict.failed } hs
            (recordOk_of_eq_fields entry _ vf3 vf4 vf5 hOkE)
          simpa [handleTaskCompletion, he, herr, hvc, hp, hrv] using this
    · have := registryOk_mapSet runs runId
        { entry with verificationResult := some VerificationVerdict.skipped } hs
        (recordOk_of_eq_fields entry _ rfl rfl rfl hOkE)
      simpa [handleTaskCompletion, he, herr, hvc] using this

theorem registryOk_verificationStep (s : RegistryMap) (runId : String)
    (userConfig : Option SubagentOrchestrationConfig) (hooks : String → HookBehavior)
    (qr : Except String (Option String)) (pending : List String) (now : ℚ)
    (hs : RegistryOk s) :
    RegistryOk (verificationSettledStep s runId userConfig hooks qr pending now).1 := by
  cases he : s runId with
  | none => simpa [verificationSettledStep, he] using hs
  | some entry =>
    have hh := registryOk_handle s runId userConfig hooks qr pending now entry hs he
    cases he2 : (handleTaskCompletion s runId
        (resolveOrchestrationConfig userConfig entry.orchestrationConfig)
        hooks qr pending now).1 runId with
    | none => simpa [verificationSettledStep, he, he2] using hh
    | some e2 =>
      by_cases herr : outcomeIsError e2.outcome
      · simpa [verificationSettledStep, he, he2, herr] using hh
      · have := registryOk_beginCleanup (handleTaskCompletion s runId
            (resolveOrchestrationConfig userConfig entry.orchestrationConfig)
            hooks qr pending now).1 runId hh
        simpa [verificationSettledStep, he, he2, herr] using this

theorem registryOk_respawn (s : RegistryMap) (runId : String) (now : ℚ)
    (hs : RegistryOk s) : RegistryOk (scheduleTaskRetryRespawn s runId now) := by
  cases he : s runId with
  | none => simpa [scheduleTaskRetryRespawn, he] using hs
  | some entry =>
    by_cases hc : qTruthy entry.cleanupCompletedAt
    · simpa [scheduleTaskRetryRespawn, he, hc] using hs
    · have := registryOk_mapSet s runId
        { entry with
          endedAt := none
          outcome := none
          cleanupHandled := some false
          startedAt := some now
          isRetry := some true } hs
        (recordOk_of_eq_fields entry _ rfl rfl rfl (hs runId entry he))
      simpa [scheduleTaskRetryRespawn, he, hc] using this

theorem registryOk_finalize (s : RegistryMap) (runId : String) (cleanup : CleanupMode)
    (didAnnounce : Bool) (now : ℚ) (hs : RegistryOk s) :
    RegistryOk (finalizeSubagentCleanup s runId cleanup didAnnounce now) := by
  cases he : s runId with
  | none => simpa [finalizeSubagentCleanup, he] using hs
  | some entry =>
    cases cleanup with
    | delete =>
      have := registryOk_mapDelete s runId hs
      simpa [finalizeSubagentCleanup, he] using this
    | keep =>
      cases didAnnounce with
      | false =>
        have := registryOk_mapSet s runId { entry with cleanupHandled := some false } hs
          (recordOk_of_eq_fields entry _ rfl rfl rfl (hs runId entry he))
        simpa [finalizeSubagentCleanup, he] using this
      | true =>
        have := registryOk_mapSet s runId { entry with cleanupCompletedAt := some now } hs
          (recordOk_of_eq_fields entry _ rfl rfl rfl (hs runId entry he))
        simpa [finalizeSubagentCleanup, he] using this

theorem registryOk_sweep (s : RegistryMap) (now : ℚ) (hs : RegistryOk s) :
    RegistryOk (sweepSubagentRuns s now) := by
  intro id e he
  simp only [sweepSubagentRuns] at he
  cases hse : s id with
  | none =>
    rw [hse] at he
    simp at he
  | some entry =>
    rw [hse] at he
    by_cases h1 : qTruthy entry.archiveAtMs
    · by_cases h2 : entry.archiveAtMs.getD 0 > now
      · simp [h1, h2] at he
        exact he ▸ hs id entry hse
      · simp [h1, h2] at he
    · simp [h1] at he
      exact he ▸ hs id entry hse

theorem registryOk_reachable (s : RegistryMap) (h : Reachable s) : RegistryOk s := by
  induction h with
  | empty =>
    intro id e he
    simp [emptyRegistry] at he
  | register s p now userConfig archiveAfterMinutes _ ih =>
    exact registryOk_register s p now userConfig archiveAfterMinutes ih
  | lifecycle s evt now userConfig pr pv _ ih =>
    exact registryOk_listenerStep s evt now userConfig pr pv ih
  | prober s runId wait now _ ih =>
    exact registryOk_proberStep s runId wait now ih
  | verification s runId userConfig hooks queryReply pr now _ ih =>
    exact registryOk_verificationStep s runId userConfig hooks queryReply pr now ih
  | respawn s runId now _ ih =>
    exact registryOk_respawn s runId now ih
  | beginCleanup s runId _ ih =>
    exact registryOk_beginCleanup s runId ih
  | finalize s runId cleanup didAnnounce now _ ih =>
    exact registryOk_finalize s runId cleanup didAnnounce now ih
  | sweep s now _ ih =>
    exact registryOk_sweep s now ih
  | release s runId _ ih =>
    exact registryOk_mapDelete s runId ih

theorem shouldRetryTask_iff (entry : SubagentRunRecord)
    (config : RequiredOrchestrationConfig) :
    shouldRetryTask entry config =
      (config.retryOnFailure && decide (entry.retryCount.getD 0 < config.maxRetries) &&
        outcomeIsError entry.outcome) := by
  by_cases h1 : config.retryOnFailure
  · by_cases h2 : entry.retryCount.getD 0 ≥ config.maxRetries
    · have hnl : ¬ entry.retryCount.getD 0 < config.maxRetries := Nat.not_lt.mpr h2
      simp [shouldRetryTask, h1, h2, hnl]
    · have hlt : entry.retryCount.getD 0 < config.maxRetries := Nat.lt_of_not_le h2
      by_cases h3 : outcomeIsError entry.outcome
      · simp [shouldRetryTask, h1, h2, hlt, h3]
      · simp [shouldRetryTask, h1, h2, hlt, h3]
  · simp [shouldRetryTask, h1]

/-- Claim C3: in every registry state reachable through the engine steps,
every record satisfies retryCount less or equal maxRetries; and a retry is
eligible exactly when retryOnFailure is on, the current (pre-increment)
retryCount is below maxRetries, and the outcome status is error. -/
theorem c3_retry_invariant (s : RegistryMap) (hs : Reachable s) :
    (∀ runId e, s runId = some e → e.retryCount.getD 0 ≤ e.maxRetries.getD 0) ∧
    (∀ entry config, shouldRetryTask entry config =
      (config.retryOnFailure && decide (entry.retryCount.getD 0 < config.maxRetries) &&
        outcomeIsError entry.outcome)) := by
  constructor
  · intro runId e he
    obtain ⟨m, hm, _, hle⟩ := registryOk_reachable s hs runId e he
    rw [hm]
    simpa using hle
  · exact shouldRetryTask_iff

/-- Witness for C3 at the state reached by one registration from the empty
registry. -/
theorem c3_retry_invariant_witness :
    (∀ runId e, registerSubagentRun emptyRegistry sampleParams 100 none none runId = some e →
      e.retryCount.getD 0 ≤ e.maxRetries.getD 0) ∧
    (∀ entry config, shouldRetryTask entry config =
      (config.retryOnFailure && decide (entry.retryCount.getD 0 < config.maxRetries) &&
        outcomeIsError entry.outcome)) :=
  c3_retry_invariant (registerSubagentRun emptyRegistry sampleParams 100 none none)
    (Reachable.register emptyRegistry sampleParams 100 none none Reachable.empty)

end OpenclawSubagents
